import Mathlib

/-!
Shallow embedding of the `serverstate` package of the fosscord server:
invite creation and redemption, the challenge-response handshake
(`FinishConnect`), session authentication, the channel message store with
its broadcast bus, and the voice-presence tracker.

Modelling conventions:
* RFC3339 timestamp strings are modelled as `Int` seconds; the Go code
  compares RFC3339 UTC strings lexicographically, which agrees with
  chronological comparison, so `Int` comparisons are faithful.
* SQL tables are lists of records; `WHERE` filters, conditional `UPDATE`s
  are maps guarded by the row predicate, `ORDER BY` is `List.insertionSort`.
* External library calls (base64, ed25519, RFC3339 parsing, URL encoding)
  are abstracted as fields of a `Crypto` structure passed to the operations.
* Randomly generated values (ids, tokens, challenges) and the current time
  are explicit arguments.
* Buffered Go channels of capacity 32 are lists; a non-blocking send
  appends when the length is below 32 and drops the event otherwise.
-/

namespace Fosscord

/-- Raw bytes (decoded base64 values, hashes, signatures). -/
abbrev Bytes := List Nat

/-- Mirror of the Go `APIError` (status, code, message). -/
structure APIError where
  status : Int
  code : String
  message : String
deriving DecidableEq, Repr

/-- Mirror of `newAPIError`. -/
def newAPIError (status : Int) (code message : String) : APIError :=
  ⟨status, code, message⟩

/-- A channel from the static server configuration. -/
structure Channel where
  id : String
  type : String
  name : String
deriving DecidableEq, Repr

/-- A row of the `invites` table. -/
structure InviteRecord where
  id : String
  allowedClientPublicKey : String
  label : String
  createdAt : Int
  usedAt : Option Int
deriving DecidableEq, Repr

/-- A row of the `sessions` table. -/
structure SessionRecord where
  token : String
  clientPublicKey : String
  createdAt : Int
  expiresAt : Int
deriving DecidableEq, Repr

/-- A row of the `members` table. -/
structure MemberRecord where
  publicKey : String
  displayName : String
  firstConnectedAt : Int
  lastConnectedAt : Int
deriving DecidableEq, Repr

/-- A row of the `messages` table. -/
structure MessageRecord where
  id : String
  channelId : String
  authorPublicKey : String
  authorName : String
  contentMarkdown : String
  createdAt : Int
  updatedAt : Int
deriving DecidableEq, Repr

/-- A row of the `voice_presence` table. -/
structure VoicePresenceRow where
  clientPublicKey : String
  channelId : String
  displayName : String
  joinedAt : Int
  lastSeenAt : Int
  audioStreams : Int
  videoStreams : Int
  cameraEnabled : Bool
  screenEnabled : Bool
  screenAudioEnabled : Bool
deriving DecidableEq, Repr

/-- Mirror of the in-memory `pendingChallenge`. -/
structure PendingChallenge where
  challenge : String
  expiresAt : Int
deriving DecidableEq, Repr

/-- Mirror of `SessionIdentity`. -/
structure SessionIdentity where
  publicKey : String
  displayName : String
deriving DecidableEq, Repr

/-- Mirror of `MessageAuthor`. -/
structure MessageAuthor where
  displayName : String
  publicKey : String
deriving DecidableEq, Repr

/-- Mirror of the API view `ChannelMessage`. -/
structure ChannelMessage where
  id : String
  channelId : String
  author : MessageAuthor
  contentMarkdown : String
  createdAt : Int
  updatedAt : Int
deriving DecidableEq, Repr

/-- Mirror of `ListMessagesResult`. -/
structure ListMessagesResult where
  messages : List ChannelMessage
deriving DecidableEq, Repr

/-- Mirror of `ChannelEvent`. -/
structure ChannelEvent where
  type : String
  message : Option ChannelMessage
deriving DecidableEq, Repr

/-- One live subscription: the channel it watches, its stream id, and its
buffered (capacity 32) event queue. -/
structure StreamEntry where
  channelId : String
  streamId : Nat
  buffer : List ChannelEvent
deriving DecidableEq, Repr

/-- Mirror of `ClientInfo`. -/
structure ClientInfo where
  displayName : String
deriving DecidableEq, Repr

/-- Mirror of `FinishRequest`. -/
structure FinishRequest where
  inviteID : String
  clientPublicKey : String
  challenge : String
  signature : String
  clientInfo : ClientInfo
deriving DecidableEq, Repr

/-- Mirror of `FinishResult`. -/
structure FinishResult where
  serverID : String
  serverName : String
  serverFingerprint : String
  livekitURL : String
  channels : List Channel
  sessionToken : String
deriving DecidableEq, Repr

/-- Mirror of `CreateInviteResult`. -/
structure CreateInviteResult where
  inviteID : String
  serverBaseURL : String
  serverFingerprint : String
  inviteLink : String
deriving DecidableEq, Repr

/-- Mirror of `CreateInviteByAdminClientRequest`. -/
structure CreateInviteByAdminClientRequest where
  adminPublicKey : String
  clientPublicKey : String
  label : String
  issuedAt : String
  signature : String
deriving DecidableEq, Repr

/-- Mirror of `ListInvitesByAdminClientRequest`. -/
structure ListInvitesByAdminClientRequest where
  adminPublicKey : String
  issuedAt : String
  signature : String
deriving DecidableEq, Repr

/-- Mirror of `InviteSummary`. -/
structure InviteSummary where
  inviteID : String
  allowedClientPublicKey : String
  label : String
  createdAt : Int
  usedAt : Option Int
  status : String
deriving DecidableEq, Repr

/-- Mirror of `ListInvitesResult`. -/
structure ListInvitesResult where
  invites : List InviteSummary
deriving DecidableEq, Repr

/-- Mirror of `VoiceParticipant`. -/
structure VoiceParticipant where
  publicKey : String
  displayName : String
  channelId : String
  joinedAt : Int
  lastSeenAt : Int
  audioStreams : Int
  videoStreams : Int
  cameraEnabled : Bool
  screenEnabled : Bool
  screenAudioEnabled : Bool
deriving DecidableEq, Repr

/-- Mirror of `VoiceChannelState`. -/
structure VoiceChannelState where
  channelId : String
  participants : List VoiceParticipant
deriving DecidableEq, Repr

/-- Mirror of `VoicePresenceUpdate`. -/
structure VoicePresenceUpdate where
  audioStreams : Int
  videoStreams : Int
  cameraEnabled : Bool
  screenEnabled : Bool
  screenAudioEnabled : Bool
deriving DecidableEq, Repr

/-- Mirror of `VoiceJoinContext`. -/
structure VoiceJoinContext where
  identity : SessionIdentity
  channelID : String
  roomName : String
deriving DecidableEq, Repr

/-- Abstraction of the external crypto / encoding / time libraries used by
the Go code (`encoding/base64`, `crypto/ed25519`, `crypto/sha256`,
`time.Parse`, `net/url`). The operations are parametric in this structure;
the Go binary fixes one concrete interpretation of it. -/
structure Crypto where
  decodePublicKey : String → Option Bytes
  decodeSignature : String → Option Bytes
  decodeBase64 : String → Option Bytes
  verify : Bytes → Bytes → Bytes → Bool
  signaturePayloadHash : Bytes → String → String → Bytes
  adminInvitePayloadHash : String → String → String → Bytes
  adminListInvitesPayloadHash : String → String → Bytes
  parseRFC3339 : String → Option Int
  encodeQuery : List (String × String) → String

/-- Mirror of the mutable server `State` plus the static configuration it
reads (`serverCfg`, `cfg`). -/
structure ServerState where
  serverName : String
  channels : List Channel
  adminPublicKeys : List String
  serverID : String
  serverFingerprint : String
  serverPublicKey : String
  livekitURL : String
  serverPublicBaseURL : String
  invites : List InviteRecord
  sessions : List SessionRecord
  members : List MemberRecord
  messages : List MessageRecord
  voicePresence : List VoicePresenceRow
  challenges : List (String × PendingChallenge)
  streams : List StreamEntry
  nextStream : Nat
deriving DecidableEq, Repr

/-- `challengeTTL = 2 * time.Minute`, in seconds. -/
def challengeTTL : Int := 120

/-- `adminRequestMaxSkew = 2 * time.Minute`, in seconds. -/
def adminRequestMaxSkew : Int := 120

/-- `sessionTTL = 30 * 24 * time.Hour`, in seconds. -/
def sessionTTL : Int := 30 * 24 * 3600

/-- `defaultMessageHistoryLimit = 100`. -/
def defaultMessageHistoryLimit : Int := 100

/-- `maxMessageHistoryLimit = 100`. -/
def maxMessageHistoryLimit : Int := 100

/-- `maxMessageLength = 4000` (bytes, as Go `len` on a string). -/
def maxMessageLength : Nat := 4000

/-- `voicePresenceTTL = 30 * time.Second`, in seconds. -/
def voicePresenceTTL : Int := 30

/-- `voicePresenceMaxLag = 5 * time.Second`, in seconds. -/
def voicePresenceMaxLag : Int := 5

/-- Capacity of a subscriber's event buffer (`make(chan ChannelEvent, 32)`). -/
def channelEventBufferCap : Nat := 32

/-- Go `strings.TrimSpace`, executably over the character list (the Go
and Lean whitespace classes agree on the characters that occur here). -/
def goTrimSpace (s : String) : String :=
  String.mk (((s.data.dropWhile Char.isWhitespace).reverse.dropWhile Char.isWhitespace).reverse)

/-- Go `strings.TrimRight(s, "/")`, executably over the character list. -/
def goTrimRightSlash (s : String) : String :=
  String.mk (s.data.reverse.dropWhile (· = '/')).reverse

/-- Go `len(s)` on a string: its UTF-8 byte count. -/
def goLen (s : String) : Nat :=
  (s.data.map Char.utf8Size).sum

/-- Go `s[:n]` on an ASCII string: the first `n` characters. -/
def goTake (s : String) (n : Nat) : String :=
  String.mk (s.data.take n)

/-- A SQL `UPDATE ... WHERE p` over a table: rows satisfying `p` are
rewritten by `f`, the rest are untouched. -/
def updateWhere {α : Type} (p : α → Bool) (f : α → α) (l : List α) : List α :=
  l.map fun a => if p a then f a else a

/-- Rows affected by a SQL `UPDATE ... WHERE p` / `DELETE ... WHERE p`. -/
def rowsMatching {α : Type} (p : α → Bool) (l : List α) : Nat :=
  l.countP p

/-- Lookup of the in-memory `challenges` map. -/
def lookupChallenge (l : List (String × PendingChallenge)) (inviteID : String) :
    Option PendingChallenge :=
  (l.find? fun p => p.1 == inviteID).map (·.2)

/-- `delete(s.challenges, inviteID)`. -/
def eraseChallenge (l : List (String × PendingChallenge)) (inviteID : String) :
    List (String × PendingChallenge) :=
  l.filter fun p => !(p.1 == inviteID)

/-- Mirror of `isAdminPublicKeyLocked`. -/
def isAdminPublicKeyLocked (st : ServerState) (publicKey : String) : Bool :=
  st.adminPublicKeys.any fun admin => admin == publicKey

/-- Mirror of `scanMessageRow`: a `messages` row as the API `ChannelMessage`. -/
def scanMessageRow (m : MessageRecord) : ChannelMessage :=
  { id := m.id
    channelId := m.channelId
    author := { displayName := m.authorName, publicKey := m.authorPublicKey }
    contentMarkdown := m.contentMarkdown
    createdAt := m.createdAt
    updatedAt := m.updatedAt }

/-- Mirror of `authenticateSessionLocked`: trim the token, sweep expired
sessions (`DELETE FROM sessions WHERE expires_at <= now`), then look the
token up joined against `members`. -/
def authenticateSessionLocked (st : ServerState) (now : Int) (token : String) :
    Except APIError SessionIdentity × ServerState :=
  let token := goTrimSpace token
  if token = "" then
    (.error (newAPIError 401 "missing_session_token" "session token is required"), st)
  else
    let st := { st with sessions := st.sessions.filter fun s => decide (now < s.expiresAt) }
    match st.sessions.find? fun s => s.token == token with
    | none =>
      (.error (newAPIError 401 "invalid_session_token" "session token is invalid or expired"), st)
    | some srow =>
      match st.members.find? fun m => m.publicKey == srow.clientPublicKey with
      | none =>
        (.error (newAPIError 401 "invalid_session_token" "session token is invalid or expired"), st)
      | some m =>
        if srow.expiresAt ≤ now then
          (.error (newAPIError 401 "invalid_session_token" "session token is invalid or expired"),
            { st with sessions := st.sessions.filter fun s => !(s.token == token) })
        else
          (.ok { publicKey := srow.clientPublicKey, displayName := m.displayName }, st)

/-- Mirror of `AuthenticateSession`. -/
def AuthenticateSession (st : ServerState) (now : Int) (token : String) :
    Except APIError SessionIdentity × ServerState :=
  authenticateSessionLocked st now token

/-- Mirror of `ensureTextChannelLocked`. -/
def ensureTextChannelLocked (st : ServerState) (channelID : String) : Except APIError Unit :=
  let channelID := goTrimSpace channelID
  if channelID = "" then
    .error (newAPIError 400 "invalid_channel" "channel id is required")
  else
    match st.channels.find? fun c => c.id == channelID with
    | some channel =>
      if channel.type ≠ "text" then
        .error (newAPIError 400 "invalid_channel_type" "channel is not a text channel")
      else
        .ok ()
    | none => .error (newAPIError 404 "channel_not_found" "channel does not exist")

/-- Mirror of `ensureVoiceChannelLocked`. -/
def ensureVoiceChannelLocked (st : ServerState) (channelID : String) : Except APIError Unit :=
  let channelID := goTrimSpace channelID
  if channelID = "" then
    .error (newAPIError 400 "invalid_channel" "channel id is required")
  else
    match st.channels.find? fun c => c.id == channelID with
    | some channel =>
      if channel.type ≠ "voice" then
        .error (newAPIError 400 "invalid_channel_type" "channel is not a voice channel")
      else
        .ok ()
    | none => .error (newAPIError 404 "channel_not_found" "channel does not exist")

/-- Mirror of `normalizeMessageContent` (Go `len` counts UTF-8 bytes). -/
def normalizeMessageContent (contentMarkdown : String) : Except APIError String :=
  let content := goTrimSpace contentMarkdown
  if content = "" then
    .error (newAPIError 400 "invalid_message" "message content cannot be empty")
  else if goLen content > maxMessageLength then
    .error (newAPIError 400 "invalid_message" "message content exceeds maximum length")
  else
    .ok content

/-- Mirror of `normalizeDisplayName`. -/
def normalizeDisplayName (displayName publicKey : String) : String :=
  let name := goTrimSpace displayName
  if name ≠ "" then name
  else
    let shortKey := goTrimSpace publicKey
    let shortKey := if shortKey.data.length > 8 then goTake shortKey 8 else shortKey
    let shortKey := if shortKey = "" then "unknown" else shortKey
    "User " ++ shortKey

/-- Mirror of `upsertMemberLocked` (`INSERT ... ON CONFLICT(public_key) DO
UPDATE SET display_name, last_connected_at`). -/
def upsertMemberLocked (st : ServerState) (now : Int) (publicKey displayName : String) :
    ServerState :=
  if st.members.any fun m => m.publicKey == publicKey then
    { st with
      members :=
        updateWhere (fun m => m.publicKey == publicKey)
          (fun m => { m with displayName := displayName, lastConnectedAt := now })
          st.members }
  else
    { st with
      members :=
        st.members ++
          [{ publicKey := publicKey, displayName := displayName, firstConnectedAt := now,
             lastConnectedAt := now }] }

/-- Mirror of `issueSessionTokenLocked`; the random token is an argument. -/
def issueSessionTokenLocked (st : ServerState) (now : Int) (token publicKey : String) :
    ServerState :=
  { st with
    sessions :=
      st.sessions ++
        [{ token := token, clientPublicKey := publicKey, createdAt := now,
           expiresAt := now + sessionTTL }] }

/-- Mirror of `lookupInvite` (`SELECT ... FROM invites WHERE id = ?`). -/
def lookupInvite (st : ServerState) (inviteID : String) : Except APIError InviteRecord :=
  match st.invites.find? fun i => i.id == inviteID with
  | none => .error (newAPIError 404 "invite_not_found" "invite does not exist")
  | some invite => .ok invite

/-- The non-blocking `select { case stream <- event: default: }` on a
buffered channel of capacity 32: append when there is room, drop otherwise. -/
def chanTrySend (buffer : List ChannelEvent) (event : ChannelEvent) : List ChannelEvent :=
  if buffer.length < channelEventBufferCap then buffer ++ [event] else buffer

/-- Mirror of `broadcastChannelEventLocked`: a non-blocking send to every
subscriber of the channel. -/
def broadcastChannelEventLocked (st : ServerState) (channelID : String) (event : ChannelEvent) :
    ServerState :=
  { st with
    streams :=
      st.streams.map fun e =>
        if e.channelId == channelID then { e with buffer := chanTrySend e.buffer event } else e }

/-- Mirror of `findMessageLocked`
(`SELECT ... FROM messages WHERE id = ? AND channel_id = ?`). -/
def findMessageLocked (st : ServerState) (channelID messageID : String) :
    Except APIError ChannelMessage :=
  match st.messages.find? fun m => m.id == messageID && m.channelId == channelID with
  | none => .error (newAPIError 404 "message_not_found" "message does not exist")
  | some m => .ok (scanMessageRow m)

/-- The comparator of `ORDER BY created_at DESC`. -/
def msgNewerFirst (a b : MessageRecord) : Prop := b.createdAt ≤ a.createdAt

instance : DecidableRel msgNewerFirst := fun a b => Int.decLe b.createdAt a.createdAt

instance : IsTotal MessageRecord msgNewerFirst := ⟨fun a b => le_total b.createdAt a.createdAt⟩

instance : IsTrans MessageRecord msgNewerFirst := ⟨fun _ _ _ h1 h2 => le_trans h2 h1⟩

/-- `ORDER BY created_at DESC` on the `messages` table. -/
def messagesByCreatedAtDesc (l : List MessageRecord) : List MessageRecord :=
  l.insertionSort msgNewerFirst

/-- Mirror of `ListMessages`: authenticate, check the text channel,
normalize the limit into `[1,100]`, fetch the newest `limit` messages of
the channel and deliver them reversed into chronological order. -/
def ListMessages (st : ServerState) (now : Int) (sessionToken channelID : String) (limit : Int) :
    Except APIError ListMessagesResult × ServerState :=
  match authenticateSessionLocked st now sessionToken with
  | (.error e, st₁) => (.error e, st₁)
  | (.ok _, st₁) =>
    match ensureTextChannelLocked st₁ channelID with
    | .error e => (.error e, st₁)
    | .ok _ =>
      let limit := if limit ≤ 0 ∨ limit > maxMessageHistoryLimit
        then defaultMessageHistoryLimit else limit
      let desc := (messagesByCreatedAtDesc
        (st₁.messages.filter fun m => m.channelId == channelID)).take limit.toNat
      (.ok { messages := desc.reverse.map scanMessageRow }, st₁)

/-- Mirror of `CreateMessage`; the random message id is an argument. -/
def CreateMessage (st : ServerState) (now : Int) (messageID : String)
    (sessionToken channelID contentMarkdown : String) :
    Except APIError ChannelMessage × ServerState :=
  match authenticateSessionLocked st now sessionToken with
  | (.error e, st₁) => (.error e, st₁)
  | (.ok identity, st₁) =>
    match ensureTextChannelLocked st₁ channelID with
    | .error e => (.error e, st₁)
    | .ok _ =>
      match normalizeMessageContent contentMarkdown with
      | .error e => (.error e, st₁)
      | .ok content =>
        let row : MessageRecord :=
          { id := messageID, channelId := channelID, authorPublicKey := identity.publicKey,
            authorName := identity.displayName, contentMarkdown := content,
            createdAt := now, updatedAt := now }
        let st₂ := { st₁ with messages := st₁.messages ++ [row] }
        let message := scanMessageRow row
        let st₃ := broadcastChannelEventLocked st₂ channelID
          { type := "message.created", message := some message }
        (.ok message, st₃)

/-- Mirror of `EditMessage`: authenticate (any valid session), check the
channel, normalize content, find the message, then
`UPDATE messages SET content_markdown, updated_at WHERE id AND channel_id`
and broadcast the updated view. -/
def EditMessage (st : ServerState) (now : Int)
    (sessionToken channelID messageID contentMarkdown : String) :
    Except APIError ChannelMessage × ServerState :=
  match authenticateSessionLocked st now sessionToken with
  | (.error e, st₁) => (.error e, st₁)
  | (.ok _, st₁) =>
    match ensureTextChannelLocked st₁ channelID with
    | .error e => (.error e, st₁)
    | .ok _ =>
      match normalizeMessageContent contentMarkdown with
      | .error e => (.error e, st₁)
      | .ok content =>
        match findMessageLocked st₁ channelID messageID with
        | .error e => (.error e, st₁)
        | .ok existing =>
          let st₂ := { st₁ with
            messages :=
              updateWhere (fun m => m.id == messageID && m.channelId == channelID)
                (fun m => { m with contentMarkdown := content, updatedAt := now })
                st₁.messages }
          let updated := { existing with contentMarkdown := content, updatedAt := now }
          let st₃ := broadcastChannelEventLocked st₂ channelID
            { type := "message.updated", message := some updated }
          (.ok updated, st₃)

/-- Predicate of the conditional update
`UPDATE invites SET used_at = ? WHERE id = ? AND used_at IS NULL`. -/
def inviteUnusedWithId (inviteID : String) (i : InviteRecord) : Bool :=
  i.id == inviteID && i.usedAt == none

/-- The conditional update of `FinishConnect` on the `invites` table,
returning the updated table and the number of affected rows. -/
def markInviteUsed (inviteID : String) (usedAt : Int) (l : List InviteRecord) :
    List InviteRecord × Nat :=
  (updateWhere (inviteUnusedWithId inviteID) (fun i => { i with usedAt := some usedAt }) l,
    rowsMatching (inviteUnusedWithId inviteID) l)

/-- Mirror of `createInviteLocked`; the random invite id is an argument. -/
def createInviteLocked (cr : Crypto) (st : ServerState) (now : Int) (inviteID : String)
    (clientPublicKeyB64 label : String) : Except APIError CreateInviteResult × ServerState :=
  let st := { st with
    invites :=
      st.invites ++
        [{ id := inviteID, allowedClientPublicKey := clientPublicKeyB64,
           label := goTrimSpace label, createdAt := now, usedAt := none }] }
  let serverBaseURL := goTrimRightSlash st.serverPublicBaseURL
  (.ok
    { inviteID := inviteID
      serverBaseURL := serverBaseURL
      serverFingerprint := st.serverFingerprint
      inviteLink := "fw://connect?" ++
        cr.encodeQuery
          [("baseUrl", serverBaseURL), ("inviteId", inviteID), ("serverFp", st.serverFingerprint)] },
    st)

/-- Mirror of `CreateInvite`. -/
def CreateInvite (cr : Crypto) (st : ServerState) (now : Int) (inviteID : String)
    (clientPublicKeyB64 label : String) : Except APIError CreateInviteResult × ServerState :=
  match cr.decodePublicKey clientPublicKeyB64 with
  | none =>
    (.error (newAPIError 400 "invalid_client_public_key"
        "clientPublicKey must be base64(ed25519 public key)"), st)
  | some _ => createInviteLocked cr st now inviteID clientPublicKeyB64 label

/-- Mirror of `CreateInviteByAdminClient`: field presence, key decoding,
admin membership, the issuedAt skew window, and only then signature
verification, before delegating to `createInviteLocked`. -/
def CreateInviteByAdminClient (cr : Crypto) (st : ServerState) (now : Int) (inviteID : String)
    (req : CreateInviteByAdminClientRequest) : Except APIError CreateInviteResult × ServerState :=
  let req := { req with
    adminPublicKey := goTrimSpace req.adminPublicKey
    clientPublicKey := goTrimSpace req.clientPublicKey
    issuedAt := goTrimSpace req.issuedAt
    signature := goTrimSpace req.signature }
  if req.adminPublicKey = "" ∨ req.clientPublicKey = "" ∨ req.issuedAt = "" ∨ req.signature = ""
  then
    (.error (newAPIError 400 "invalid_request"
        "adminPublicKey, clientPublicKey, issuedAt and signature are required"), st)
  else
    match cr.decodePublicKey req.adminPublicKey with
    | none =>
      (.error (newAPIError 400 "invalid_admin_public_key"
          "adminPublicKey must be base64(ed25519 public key)"), st)
    | some adminKey =>
      match cr.decodePublicKey req.clientPublicKey with
      | none =>
        (.error (newAPIError 400 "invalid_client_public_key"
            "clientPublicKey must be base64(ed25519 public key)"), st)
      | some _ =>
        if ¬ isAdminPublicKeyLocked st req.adminPublicKey then
          (.error (newAPIError 403 "admin_forbidden" "client is not an administrator"), st)
        else
          match cr.parseRFC3339 req.issuedAt with
          | none => (.error (newAPIError 400 "invalid_issued_at" "issuedAt must be RFC3339"), st)
          | some issuedAt =>
            if now - issuedAt > adminRequestMaxSkew ∨ issuedAt - now > adminRequestMaxSkew then
              (.error (newAPIError 401 "stale_request" "issuedAt is outside allowed skew"), st)
            else
              match cr.decodeSignature req.signature with
              | none =>
                (.error (newAPIError 400 "invalid_signature"
                    "signature must be base64(ed25519 signature)"), st)
              | some signature =>
                let hash :=
                  cr.adminInvitePayloadHash req.adminPublicKey req.clientPublicKey req.issuedAt
                if ¬ cr.verify adminKey hash signature then
                  (.error (newAPIError 401 "invalid_signature" "signature verification failed"), st)
                else
                  createInviteLocked cr st now inviteID req.clientPublicKey req.label

/-- `ORDER BY created_at DESC` on the `invites` table. -/
def invitesByCreatedAtDesc (l : List InviteRecord) : List InviteRecord :=
  l.insertionSort fun a b => b.createdAt ≤ a.createdAt

/-- The `InviteSummary` of one `invites` row, with its derived `status`. -/
def inviteSummaryOfRecord (i : InviteRecord) : InviteSummary :=
  { inviteID := i.id
    allowedClientPublicKey := i.allowedClientPublicKey
    label := i.label
    createdAt := i.createdAt
    usedAt := i.usedAt
    status := if i.usedAt.isSome then "used" else "active" }

/-- Mirror of `ListInvitesByAdminClient`: the same admin checks as invite
creation, then the full invite listing newest-first. -/
def ListInvitesByAdminClient (cr : Crypto) (st : ServerState) (now : Int)
    (req : ListInvitesByAdminClientRequest) : Except APIError ListInvitesResult × ServerState :=
  let req := { req with
    adminPublicKey := goTrimSpace req.adminPublicKey
    issuedAt := goTrimSpace req.issuedAt
    signature := goTrimSpace req.signature }
  if req.adminPublicKey = "" ∨ req.issuedAt = "" ∨ req.signature = "" then
    (.error (newAPIError 400 "invalid_request"
        "adminPublicKey, issuedAt and signature are required"), st)
  else
    match cr.decodePublicKey req.adminPublicKey with
    | none =>
      (.error (newAPIError 400 "invalid_admin_public_key"
          "adminPublicKey must be base64(ed25519 public key)"), st)
    | some adminKey =>
      if ¬ isAdminPublicKeyLocked st req.adminPublicKey then
        (.error (newAPIError 403 "admin_forbidden" "client is not an administrator"), st)
      else
        match cr.parseRFC3339 req.issuedAt with
        | none => (.error (newAPIError 400 "invalid_issued_at" "issuedAt must be RFC3339"), st)
        | some issuedAt =>
          if now - issuedAt > adminRequestMaxSkew ∨ issuedAt - now > adminRequestMaxSkew then
            (.error (newAPIError 401 "stale_request" "issuedAt is outside allowed skew"), st)
          else
            match cr.decodeSignature req.signature with
            | none =>
              (.error (newAPIError 400 "invalid_signature"
                  "signature must be base64(ed25519 signature)"), st)
            | some signature =>
              let hash := cr.adminListInvitesPayloadHash req.adminPublicKey req.issuedAt
              if ¬ cr.verify adminKey hash signature then
                (.error (newAPIError 401 "invalid_signature" "signature verification failed"), st)
              else
                (.ok
                  { invites :=
                      (invitesByCreatedAtDesc st.invites).map inviteSummaryOfRecord },
                  st)

/-- Mirror of `BeginConnect`; the random challenge is an argument. -/
def BeginConnect (st : ServerState) (now : Int) (challenge : String) (inviteID : String) :
    Except APIError (String × Int) × ServerState :=
  let inviteID := goTrimSpace inviteID
  if inviteID = "" then
    (.error (newAPIError 400 "invalid_invite" "inviteId is required"), st)
  else
    match lookupInvite st inviteID with
    | .error e => (.error e, st)
    | .ok invite =>
      if invite.usedAt ≠ none then
        (.error (newAPIError 403 "invite_used" "invite has already been used"), st)
      else
        let expiresAt := now + challengeTTL
        (.ok (challenge, expiresAt),
          { st with
            challenges :=
              eraseChallenge st.challenges inviteID ++
                [(inviteID, { challenge := challenge, expiresAt := expiresAt })] })

/-- Mirror of `FinishConnect`; the current time and the freshly generated
session token are arguments. The conditional update on `invites` and the
zero-affected-rows check follow the source exactly. -/
def FinishConnect (cr : Crypto) (st : ServerState) (now : Int) (newSessionToken : String)
    (req : FinishRequest) : Except APIError FinishResult × ServerState :=
  let inviteID := goTrimSpace req.inviteID
  if inviteID = "" then
    (.error (newAPIError 400 "invalid_request" "inviteId is required"), st)
  else if goTrimSpace req.clientPublicKey = "" ∨ goTrimSpace req.challenge = "" ∨ goTrimSpace req.signature = "" then
    (.error (newAPIError 400 "invalid_request"
        "clientPublicKey, challenge and signature are required"), st)
  else
    match lookupInvite st inviteID with
    | .error e => (.error e, st)
    | .ok invite =>
      if invite.usedAt ≠ none then
        (.error (newAPIError 403 "invite_used" "invite has already been used"), st)
      else if req.clientPublicKey ≠ invite.allowedClientPublicKey then
        (.error (newAPIError 403 "client_not_allowed"
            "client public key is not allowed for this invite"), st)
      else
        match lookupChallenge st.challenges inviteID with
        | none => (.error (newAPIError 401 "challenge_missing" "challenge not initialized"), st)
        | some challenge =>
          if challenge.expiresAt < now then
            (.error (newAPIError 401 "challenge_expired" "challenge has expired"),
              { st with challenges := eraseChallenge st.challenges inviteID })
          else if req.challenge ≠ challenge.challenge then
            (.error (newAPIError 401 "challenge_mismatch" "challenge mismatch"), st)
          else
            match cr.decodePublicKey req.clientPublicKey with
            | none =>
              (.error (newAPIError 400 "invalid_client_public_key"
                  "clientPublicKey must be base64(ed25519 public key)"), st)
            | some clientPublicKey =>
              match cr.decodeSignature req.signature with
              | none =>
                (.error (newAPIError 400 "invalid_signature"
                    "signature must be base64(ed25519 signature)"), st)
              | some signature =>
                match cr.decodeBase64 req.challenge with
                | none =>
                  (.error (newAPIError 400 "invalid_challenge" "challenge must be base64"), st)
                | some challengeBytes =>
                  let hash := cr.signaturePayloadHash challengeBytes inviteID st.serverFingerprint
                  if ¬ cr.verify clientPublicKey hash signature then
                    (.error (newAPIError 401 "invalid_signature" "signature verification failed"),
                      st)
                  else
                    let (invites, rowsAffected) := markInviteUsed inviteID now st.invites
                    if rowsAffected = 0 then
                      (.error (newAPIError 403 "invite_used" "invite has already been used"),
                        { st with invites := invites })
                    else
                      let st := { st with
                        invites := invites
                        challenges := eraseChallenge st.challenges inviteID }
                      let displayName :=
                        normalizeDisplayName req.clientInfo.displayName req.clientPublicKey
                      let st := upsertMemberLocked st now req.clientPublicKey displayName
                      let st := issueSessionTokenLocked st now newSessionToken req.clientPublicKey
                      (.ok
                        { serverID := st.serverID
                          serverName := st.serverName
                          serverFingerprint := st.serverFingerprint
                          livekitURL := st.livekitURL
                          channels := st.channels
                          sessionToken := newSessionToken },
                        st)

/-- One `FinishConnect` call of a serialized (lock-ordered) sequence: its
observed time, its freshly generated session token, and its request. -/
structure FinishCall where
  now : Int
  newSessionToken : String
  req : FinishRequest
deriving DecidableEq, Repr

/-- A serialized sequence of `FinishConnect` calls, as the coarse mutex
orders them; returns each call's result and the final state. -/
def runFinishSeq (cr : Crypto) : ServerState → List FinishCall →
    List (Except APIError FinishResult) × ServerState
  | st, [] => ([], st)
  | st, c :: cs =>
    let (r, st₁) := FinishConnect cr st c.now c.newSessionToken c.req
    let (rs, st₂) := runFinishSeq cr st₁ cs
    (r :: rs, st₂)

/-- Mirror of `SubscribeChannelEvents`: register a fresh stream with an
empty capacity-32 buffer and return its id. -/
def SubscribeChannelEvents (st : ServerState) (now : Int) (sessionToken channelID : String) :
    Except APIError Nat × ServerState :=
  match authenticateSessionLocked st now sessionToken with
  | (.error e, st₁) => (.error e, st₁)
  | (.ok _, st₁) =>
    match ensureTextChannelLocked st₁ channelID with
    | .error e => (.error e, st₁)
    | .ok _ =>
      let streamID := st₁.nextStream + 1
      (.ok streamID,
        { st₁ with
          nextStream := streamID
          streams :=
            st₁.streams ++ [{ channelId := channelID, streamId := streamID, buffer := [] }] })

/-- Mirror of `cleanupVoicePresenceLocked`
(`DELETE FROM voice_presence WHERE last_seen_at < now - (TTL + maxLag)`). -/
def cleanupVoicePresenceLocked (st : ServerState) (now : Int) : ServerState :=
  let cutoff := now - (voicePresenceTTL + voicePresenceMaxLag)
  { st with
    voicePresence := st.voicePresence.filter fun r => !(decide (r.lastSeenAt < cutoff)) }

/-- Mirror of `upsertVoicePresenceLocked`: insert-or-update keyed on
`client_public_key`; `joined_at` is kept only when the channel is
unchanged, everything else is overwritten. -/
def upsertVoicePresenceLocked (st : ServerState) (now : Int) (identity : SessionIdentity)
    (channelID : String) (update : VoicePresenceUpdate) : ServerState :=
  if st.voicePresence.any fun r => r.clientPublicKey == identity.publicKey then
    { st with
      voicePresence :=
        updateWhere (fun r => r.clientPublicKey == identity.publicKey)
          (fun r =>
            { clientPublicKey := r.clientPublicKey
              channelId := channelID
              displayName := identity.displayName
              joinedAt := if r.channelId == channelID then r.joinedAt else now
              lastSeenAt := now
              audioStreams := update.audioStreams
              videoStreams := update.videoStreams
              cameraEnabled := update.cameraEnabled
              screenEnabled := update.screenEnabled
              screenAudioEnabled := update.screenAudioEnabled })
          st.voicePresence }
  else
    { st with
      voicePresence :=
        st.voicePresence ++
          [{ clientPublicKey := identity.publicKey
             channelId := channelID
             displayName := identity.displayName
             joinedAt := now
             lastSeenAt := now
             audioStreams := update.audioStreams
             videoStreams := update.videoStreams
             cameraEnabled := update.cameraEnabled
             screenEnabled := update.screenEnabled
             screenAudioEnabled := update.screenAudioEnabled }] }

/-- Mirror of `clampVoicePresenceUpdate`: stream counts clamped into
`[0, 16]`. -/
def clampVoicePresenceUpdate (update : VoicePresenceUpdate) : VoicePresenceUpdate :=
  let update := if update.audioStreams < 0 then { update with audioStreams := 0 } else update
  let update := if update.videoStreams < 0 then { update with videoStreams := 0 } else update
  let update := if update.audioStreams > 16 then { update with audioStreams := 16 } else update
  let update := if update.videoStreams > 16 then { update with videoStreams := 16 } else update
  update

/-- Mirror of `VoiceRoomName`. -/
def VoiceRoomName (serverID channelID : String) : String :=
  goTrimSpace serverID ++ ":" ++ goTrimSpace channelID

/-- Mirror of `BeginVoiceJoin`: authenticate, check the voice channel,
sweep stale presence, upsert the caller's row with the default update. -/
def BeginVoiceJoin (st : ServerState) (now : Int) (sessionToken channelID : String) :
    Except APIError VoiceJoinContext × ServerState :=
  match authenticateSessionLocked st now sessionToken with
  | (.error e, st₁) => (.error e, st₁)
  | (.ok identity, st₁) =>
    match ensureVoiceChannelLocked st₁ channelID with
    | .error e => (.error e, st₁)
    | .ok _ =>
      let st₂ := cleanupVoicePresenceLocked st₁ now
      let update : VoicePresenceUpdate :=
        { audioStreams := 1, videoStreams := 0, cameraEnabled := false, screenEnabled := false,
          screenAudioEnabled := false }
      let st₃ := upsertVoicePresenceLocked st₂ now identity channelID update
      (.ok
        { identity := identity
          channelID := channelID
          roomName := VoiceRoomName st₃.serverID channelID },
        st₃)

/-- Mirror of `TouchVoicePresence`: like `BeginVoiceJoin` but with the
caller-supplied, clamped update. -/
def TouchVoicePresence (st : ServerState) (now : Int) (sessionToken channelID : String)
    (update : VoicePresenceUpdate) : Except APIError Unit × ServerState :=
  match authenticateSessionLocked st now sessionToken with
  | (.error e, st₁) => (.error e, st₁)
  | (.ok identity, st₁) =>
    match ensureVoiceChannelLocked st₁ channelID with
    | .error e => (.error e, st₁)
    | .ok _ =>
      let st₂ := cleanupVoicePresenceLocked st₁ now
      let st₃ := upsertVoicePresenceLocked st₂ now identity channelID
        (clampVoicePresenceUpdate update)
      (.ok (), st₃)

/-- Mirror of `LeaveVoiceChannel`: sweep stale presence, then delete the
caller's row unconditionally. -/
def LeaveVoiceChannel (st : ServerState) (now : Int) (sessionToken : String) :
    Except APIError Unit × ServerState :=
  match authenticateSessionLocked st now sessionToken with
  | (.error e, st₁) => (.error e, st₁)
  | (.ok identity, st₁) =>
    let st₂ := cleanupVoicePresenceLocked st₁ now
    (.ok (),
      { st₂ with
        voicePresence :=
          st₂.voicePresence.filter fun r => !(r.clientPublicKey == identity.publicKey) })

/-- Mirror of `scanVoiceParticipant`: a `voice_presence` row as the API
`VoiceParticipant`. -/
def scanVoiceParticipant (r : VoicePresenceRow) : VoiceParticipant :=
  { publicKey := r.clientPublicKey
    displayName := r.displayName
    channelId := r.channelId
    joinedAt := r.joinedAt
    lastSeenAt := r.lastSeenAt
    audioStreams := r.audioStreams
    videoStreams := r.videoStreams
    cameraEnabled := r.cameraEnabled
    screenEnabled := r.screenEnabled
    screenAudioEnabled := r.screenAudioEnabled }

/-- `ORDER BY joined_at ASC` on the `voice_presence` table. -/
def voicePresenceByJoinedAtAsc (l : List VoicePresenceRow) : List VoicePresenceRow :=
  l.insertionSort fun a b => a.joinedAt ≤ b.joinedAt

/-- Mirror of `GetVoiceChannelState`: authenticate, check the voice
channel, sweep stale presence, then list the channel's presence rows
ordered by `joined_at`. -/
def GetVoiceChannelState (st : ServerState) (now : Int) (sessionToken channelID : String) :
    Except APIError VoiceChannelState × ServerState :=
  match authenticateSessionLocked st now sessionToken with
  | (.error e, st₁) => (.error e, st₁)
  | (.ok _, st₁) =>
    match ensureVoiceChannelLocked st₁ channelID with
    | .error e => (.error e, st₁)
    | .ok _ =>
      let st₂ := cleanupVoicePresenceLocked st₁ now
      let rows := voicePresenceByJoinedAtAsc
        (st₂.voicePresence.filter fun r => r.channelId == channelID)
      (.ok
        { channelId := channelID
          participants := rows.map scanVoiceParticipant },
        st₂)

deriving instance DecidableEq for Except

/-! ### General lemmas about the table primitives -/

theorem updateWhere_eq_of_countP_zero {α : Type} (p : α → Bool) (f : α → α) (l : List α)
    (h : l.countP p = 0) : updateWhere p f l = l := by
  induction l with
  | nil => rfl
  | cons hd tl ih =>
    simp only [List.countP_cons] at h
    by_cases hp : p hd
    · simp [hp] at h
    · simp only [updateWhere, List.map_cons, if_neg hp] at *
      rw [ih (by omega)]

theorem find?_updateWhere {α : Type} (q p : α → Bool) (f : α → α)
    (hqf : ∀ a, q (f a) = q a) (l : List α) :
    (updateWhere p f l).find? q = (l.find? q).map fun a => if p a then f a else a := by
  induction l with
  | nil => rfl
  | cons hd tl ih =>
    have hq : q (if p hd then f hd else hd) = q hd := by
      by_cases hp : p hd <;> simp [hp, hqf]
    by_cases hqa : q hd
    · simp [updateWhere, List.find?_cons, hq, hqa]
    · simp only [updateWhere, List.map_cons] at *
      rw [List.find?_cons, List.find?_cons]
      simp only [hq, hqa]
      exact ih

theorem countP_ne_zero_of_find? {α : Type} {q p : α → Bool} {l : List α} {a : α}
    (hf : l.find? q = some a) (hp : p a = true) : l.countP p ≠ 0 := by
  intro h0
  exact absurd hp (by simpa using List.countP_eq_zero.mp h0 a (List.mem_of_find?_eq_some hf))

/-- `authenticateSessionLocked` only rewrites the `sessions` table; every
other component of the state is untouched, on success and on failure. -/
theorem authenticateSessionLocked_state (st : ServerState) (now : Int) (token : String) :
    (authenticateSessionLocked st now token).2 =
      { st with sessions := (authenticateSessionLocked st now token).2.sessions } := by
  unfold authenticateSessionLocked
  dsimp only
  split
  · rfl
  · split
    · rfl
    · split
      · rfl
      · split
        · rfl
        · rfl

/-! ### Concrete fixtures used by the witnesses and counterexamples -/

/-- A concrete interpretation of the external libraries, used to evaluate
the operations on closed inputs. -/
def sampleCrypto : Crypto :=
  { decodePublicKey := fun s => if goTrimSpace s = "" then none else some [1]
    decodeSignature := fun _ => some [2]
    decodeBase64 := fun _ => some [3]
    verify := fun _ _ _ => true
    signaturePayloadHash := fun _ _ _ => [7]
    adminInvitePayloadHash := fun _ _ _ => [8]
    adminListInvitesPayloadHash := fun _ _ => [9]
    parseRFC3339 := fun s => if s = "T1000" then some 1000 else none
    encodeQuery := fun _ => "" }

/-- A concrete server state: one text and one voice channel, one member
with one live session, one unused invite with a pending challenge, one
stored message, one voice-presence row, one subscriber. -/
def sampleState : ServerState :=
  { serverName := "Local Server"
    channels := [⟨"general", "text", "general"⟩, ⟨"voice-main", "voice", "Voice"⟩]
    adminPublicKeys := ["adminPK"]
    serverID := "srv-1"
    serverFingerprint := "fp"
    serverPublicKey := "spk"
    livekitURL := ""
    serverPublicBaseURL := "http://x"
    invites := [⟨"inv1", "clientPK", "", 0, none⟩]
    sessions := [⟨"tok", "pkA", 0, 1000⟩]
    members := [⟨"pkA", "Alice", 0, 0⟩]
    messages := [⟨"m1", "general", "pkA", "Alice", "hello", 0, 0⟩]
    voicePresence := [⟨"pkA", "voice-main", "Alice", 0, 0, 1, 0, false, false, false⟩]
    challenges := [("inv1", ⟨"chal", 100⟩)]
    streams := [⟨"general", 1, []⟩]
    nextStream := 1 }

/-! ### C4: unknown and expired session tokens are indistinguishable -/

/-- C4: for every session token that is absent from the `sessions` table
and for every session token whose row has expired,
`authenticateSessionLocked` (hence `AuthenticateSession`) fails with the
same error, code `invalid_session_token`, so a caller cannot tell an
unknown token from an expired one by the error code. -/
theorem authenticateSession_unknown_expired_same_code
    (st : ServerState) (now : Int) (token : String)
    (hne : goTrimSpace token ≠ "")
    (hnodup : (st.sessions.map (·.token)).Nodup) :
    ((∀ s ∈ st.sessions, s.token ≠ goTrimSpace token) →
      (authenticateSessionLocked st now token).1 =
        .error (newAPIError 401 "invalid_session_token" "session token is invalid or expired")) ∧
    (∀ s ∈ st.sessions, s.token = goTrimSpace token → s.expiresAt ≤ now →
      (authenticateSessionLocked st now token).1 =
        .error (newAPIError 401 "invalid_session_token" "session token is invalid or expired")) := by
  constructor
  · intro habsent
    have hfind :
        (st.sessions.filter fun s => decide (now < s.expiresAt)).find?
          (fun s => s.token == goTrimSpace token) = none := by
      apply List.find?_eq_none.mpr
      intro x hx
      have hxmem : x ∈ st.sessions := (List.mem_filter.mp hx).1
      simpa using habsent x hxmem
    unfold authenticateSessionLocked
    simp only [if_neg hne, hfind]
  · intro s hs hstok hsexp
    have hfind :
        (st.sessions.filter fun s => decide (now < s.expiresAt)).find?
          (fun s => s.token == goTrimSpace token) = none := by
      apply List.find?_eq_none.mpr
      intro x hx
      rcases List.mem_filter.mp hx with ⟨hxmem, hxlive⟩
      simp only [beq_iff_eq]
      intro hxtok
      have hxs : x = s :=
        List.inj_on_of_nodup_map hnodup hxmem hs (by rw [hxtok, hstok])
      subst hxs
      simp at hxlive
      omega
    unfold authenticateSessionLocked
    simp only [if_neg hne, hfind]

/-- Witness for C4 at a concrete state: the token is swept and unknown. -/
theorem authenticateSession_unknown_expired_same_code_witness :
    goTrimSpace "zzz" ≠ "" ∧
    (authenticateSessionLocked sampleState 2000 "zzz").1 =
      .error (newAPIError 401 "invalid_session_token" "session token is invalid or expired") ∧
    (authenticateSessionLocked sampleState 2000 "tok").1 =
      .error (newAPIError 401 "invalid_session_token" "session token is invalid or expired") :=
  ⟨by decide,
    (authenticateSession_unknown_expired_same_code sampleState 2000 "zzz" (by decide)
          (by decide)).1
      (by decide),
    (authenticateSession_unknown_expired_same_code sampleState 2000 "tok" (by decide)
          (by decide)).2
      ⟨"tok", "pkA", 0, 1000⟩ (by decide) (by decide) (by decide)⟩

/-- `ensureTextChannelLocked` reads only the channel list. -/
theorem ensureTextChannelLocked_eq_of_channels {st' st : ServerState} (channelID : String)
    (h : st'.channels = st.channels) :
    ensureTextChannelLocked st' channelID = ensureTextChannelLocked st channelID := by
  unfold ensureTextChannelLocked
  rw [h]

/-- `ensureVoiceChannelLocked` reads only the channel list. -/
theorem ensureVoiceChannelLocked_eq_of_channels {st' st : ServerState} (channelID : String)
    (h : st'.channels = st.channels) :
    ensureVoiceChannelLocked st' channelID = ensureVoiceChannelLocked st channelID := by
  unfold ensureVoiceChannelLocked
  rw [h]

/-- The success shape of `EditMessage`: with an authenticated session, a
text channel, normalized content and an existing target row, the call
returns the rewritten view and the state with the conditional update
applied and the `message.updated` event broadcast. -/
theorem EditMessage_ok (st : ServerState) (now : Int)
    (sessionToken channelID messageID contentMarkdown : String)
    (ident : SessionIdentity) (st₁ : ServerState) (content : String) (existing : MessageRecord)
    (hAuth : authenticateSessionLocked st now sessionToken = (.ok ident, st₁))
    (hCh : ensureTextChannelLocked st channelID = .ok ())
    (hContent : normalizeMessageContent contentMarkdown = .ok content)
    (hFind : st.messages.find? (fun m => m.id == messageID && m.channelId == channelID) =
      some existing) :
    EditMessage st now sessionToken channelID messageID contentMarkdown =
      (.ok (scanMessageRow { existing with contentMarkdown := content, updatedAt := now }),
        broadcastChannelEventLocked
          { st₁ with
            messages :=
              updateWhere (fun m => m.id == messageID && m.channelId == channelID)
                (fun m => { m with contentMarkdown := content, updatedAt := now })
                st.messages }
          channelID
          { type := "message.updated"
            message :=
              some (scanMessageRow
                { existing with contentMarkdown := content, updatedAt := now }) }) := by
  have hframe := authenticateSessionLocked_state st now sessionToken
  rw [hAuth] at hframe
  dsimp only at hframe
  have hch' : st₁.channels = st.channels := by rw [hframe]
  have hmsg' : st₁.messages = st.messages := by rw [hframe]
  unfold EditMessage
  rw [hAuth]
  dsimp only
  rw [ensureTextChannelLocked_eq_of_channels channelID hch', hCh]
  dsimp only
  rw [hContent]
  dsimp only
  unfold findMessageLocked
  rw [hmsg']
  rw [hFind]
  dsimp only
  rfl

/-- The success shape of `CreateMessage`: with an authenticated session, a
text channel and normalized content, the call appends the new row and
broadcasts the `message.created` event. -/
theorem CreateMessage_ok (st : ServerState) (now : Int)
    (messageID sessionToken channelID contentMarkdown : String)
    (ident : SessionIdentity) (st₁ : ServerState) (content : String)
    (hAuth : authenticateSessionLocked st now sessionToken = (.ok ident, st₁))
    (hCh : ensureTextChannelLocked st channelID = .ok ())
    (hContent : normalizeMessageContent contentMarkdown = .ok content) :
    CreateMessage st now messageID sessionToken channelID contentMarkdown =
      (.ok (scanMessageRow
          ⟨messageID, channelID, ident.publicKey, ident.displayName, content, now, now⟩),
        broadcastChannelEventLocked
          { st₁ with
            messages :=
              st.messages ++
                [⟨messageID, channelID, ident.publicKey, ident.displayName, content, now, now⟩] }
          channelID
          { type := "message.created"
            message :=
              some (scanMessageRow
                ⟨messageID, channelID, ident.publicKey, ident.displayName, content,
                  now, now⟩) }) := by
  have hframe := authenticateSessionLocked_state st now sessionToken
  rw [hAuth] at hframe
  dsimp only at hframe
  have hch' : st₁.channels = st.channels := by rw [hframe]
  have hmsg' : st₁.messages = st.messages := by rw [hframe]
  unfold CreateMessage
  rw [hAuth]
  dsimp only
  rw [ensureTextChannelLocked_eq_of_channels channelID hch', hCh]
  dsimp only
  rw [hContent]
  dsimp only
  rw [hmsg']

/-! ### C10: `EditMessage` needs a valid session, not authorship -/

/-- C10: `EditMessage` succeeds for any authenticated session `ident`,
with no condition relating `ident` to the message's author; the stored
table is rewritten only at `contentMarkdown`/`updatedAt` of the target
row, every other field and row surviving unchanged; the returned message
keeps the original id, channel, author and `createdAt`; and the result is
identical for any other authenticated session. -/
theorem EditMessage_requires_session_not_authorship
    (st : ServerState) (now : Int) (sessionToken channelID messageID contentMarkdown : String)
    (ident : SessionIdentity) (st₁ : ServerState) (content : String) (existing : MessageRecord)
    (hAuth : authenticateSessionLocked st now sessionToken = (.ok ident, st₁))
    (hCh : ensureTextChannelLocked st channelID = .ok ())
    (hContent : normalizeMessageContent contentMarkdown = .ok content)
    (hFind : st.messages.find? (fun m => m.id == messageID && m.channelId == channelID) =
      some existing) :
    (EditMessage st now sessionToken channelID messageID contentMarkdown).1 =
      .ok (scanMessageRow { existing with contentMarkdown := content, updatedAt := now }) ∧
    (EditMessage st now sessionToken channelID messageID contentMarkdown).2.messages =
      updateWhere (fun m => m.id == messageID && m.channelId == channelID)
        (fun m => { m with contentMarkdown := content, updatedAt := now }) st.messages ∧
    (∀ m ∈ (EditMessage st now sessionToken channelID messageID contentMarkdown).2.messages,
      ∃ m₀ ∈ st.messages,
        m.id = m₀.id ∧ m.channelId = m₀.channelId ∧ m.authorPublicKey = m₀.authorPublicKey ∧
        m.authorName = m₀.authorName ∧ m.createdAt = m₀.createdAt ∧
        ((m₀.id == messageID && m₀.channelId == channelID) = false → m = m₀)) ∧
    (∀ (sessionToken' : String) (ident' : SessionIdentity) (st₁' : ServerState),
      authenticateSessionLocked st now sessionToken' = (.ok ident', st₁') →
      (EditMessage st now sessionToken' channelID messageID contentMarkdown).1 =
        (EditMessage st now sessionToken channelID messageID contentMarkdown).1) := by
  have hmain : ∀ (tok : String) (idn : SessionIdentity) (stA : ServerState),
      authenticateSessionLocked st now tok = (.ok idn, stA) →
      EditMessage st now tok channelID messageID contentMarkdown =
        (.ok (scanMessageRow { existing with contentMarkdown := content, updatedAt := now }),
          broadcastChannelEventLocked
            { stA with
              messages :=
                updateWhere (fun m => m.id == messageID && m.channelId == channelID)
                  (fun m => { m with contentMarkdown := content, updatedAt := now })
                  st.messages }
            channelID
            { type := "message.updated"
              message :=
                some (scanMessageRow
                  { existing with contentMarkdown := content, updatedAt := now }) }) :=
    fun tok idn stA hA =>
      EditMessage_ok st now tok channelID messageID contentMarkdown idn stA content existing
        hA hCh hContent hFind
  have hme := hmain sessionToken ident st₁ hAuth
  have hframe := authenticateSessionLocked_state st now sessionToken
  rw [hAuth] at hframe
  refine ⟨by rw [hme], ?_, ?_, ?_⟩
  · rw [hme]
    simp only [broadcastChannelEventLocked]
  · intro m hm
    rw [hme] at hm
    simp only [broadcastChannelEventLocked, updateWhere] at hm
    rcases List.mem_map.mp hm with ⟨m₀, hm₀, hmeq⟩
    refine ⟨m₀, hm₀, ?_⟩
    by_cases hp : (m₀.id == messageID && m₀.channelId == channelID) = true
    · rw [if_pos hp] at hmeq
      subst hmeq
      simp [hp]
    · rw [if_neg hp] at hmeq
      subst hmeq
      simp
  · intro tok' ident' st₁' hAuth'
    rw [hmain tok' ident' st₁' hAuth', hme]

/-- Witness for C10: a session of Bob (not the author Alice) edits m1. -/
theorem EditMessage_requires_session_not_authorship_witness :
    authenticateSessionLocked
        { sampleState with
          sessions := [⟨"tokB", "pkB", 0, 1000⟩]
          members := [⟨"pkA", "Alice", 0, 0⟩, ⟨"pkB", "Bob", 0, 0⟩] } 10 "tokB" =
      (.ok ⟨"pkB", "Bob"⟩,
        { sampleState with
          sessions := [⟨"tokB", "pkB", 0, 1000⟩]
          members := [⟨"pkA", "Alice", 0, 0⟩, ⟨"pkB", "Bob", 0, 0⟩] }) ∧
    (EditMessage
        { sampleState with
          sessions := [⟨"tokB", "pkB", 0, 1000⟩]
          members := [⟨"pkA", "Alice", 0, 0⟩, ⟨"pkB", "Bob", 0, 0⟩] }
        10 "tokB" "general" "m1" "hello2").1 =
      .ok (scanMessageRow ⟨"m1", "general", "pkA", "Alice", "hello2", 0, 10⟩) := by
  have h := EditMessage_requires_session_not_authorship
    { sampleState with
      sessions := [⟨"tokB", "pkB", 0, 1000⟩]
      members := [⟨"pkA", "Alice", 0, 0⟩, ⟨"pkB", "Bob", 0, 0⟩] }
    10 "tokB" "general" "m1" "hello2" ⟨"pkB", "Bob"⟩
    { sampleState with
      sessions := [⟨"tokB", "pkB", 0, 1000⟩]
      members := [⟨"pkA", "Alice", 0, 0⟩, ⟨"pkB", "Bob", 0, 0⟩] }
    "hello2" ⟨"m1", "general", "pkA", "Alice", "hello", 0, 0⟩
    (by decide) (by decide) (by decide) (by decide)
  exact ⟨by decide, h.1⟩

/-! ### C2: `updatedAt` of a message under create and edit -/

/-- C2 counterexample: `EditMessage` stamps `updatedAt` with the clock
reading of the edit, which the code nowhere forces past the stored
`updatedAt` (RFC3339 has second granularity, so two operations in the
same second read equal stamps). Editing `m1` (stored `updatedAt = 0`) at
time `0` succeeds, and the message's `updatedAt` is still `0` — not
strictly greater than before the edit. -/
theorem EditMessage_not_strictly_increasing :
    sampleState.messages.find? (fun m => m.id == "m1" && m.channelId == "general") =
      some ⟨"m1", "general", "pkA", "Alice", "hello", 0, 0⟩ ∧
    (EditMessage sampleState 0 "tok" "general" "m1" "hello2").1 =
      .ok (scanMessageRow ⟨"m1", "general", "pkA", "Alice", "hello2", 0, 0⟩) ∧
    (EditMessage sampleState 0 "tok" "general" "m1" "hello2").2.messages.map (·.updatedAt) =
      [0] := by
  decide

/-- C2 amended: `updatedAt ≥ createdAt` is an invariant — `CreateMessage`
establishes it on the new row and `EditMessage` preserves it for every
row whenever the clock reading is at least the stored stamps (a monotone
clock guarantees this) — and each successful `EditMessage` sets the
message's `updatedAt` to the current time, which is greater than or equal
to (not necessarily strictly greater than) the previous `updatedAt`. -/
theorem message_updatedAt_invariant_and_nondecreasing
    (st : ServerState) (now : Int) (sessionToken channelID : String)
    (ident : SessionIdentity) (st₁ : ServerState)
    (hAuth : authenticateSessionLocked st now sessionToken = (.ok ident, st₁))
    (hCh : ensureTextChannelLocked st channelID = .ok ())
    (hMono : ∀ m ∈ st.messages, m.createdAt ≤ now ∧ m.updatedAt ≤ now)
    (hInv : ∀ m ∈ st.messages, m.createdAt ≤ m.updatedAt) :
    (∀ (messageID contentMarkdown content : String),
      normalizeMessageContent contentMarkdown = .ok content →
      ∀ m ∈ (CreateMessage st now messageID sessionToken channelID contentMarkdown).2.messages,
        m.createdAt ≤ m.updatedAt) ∧
    (∀ (messageID contentMarkdown content : String) (existing : MessageRecord),
      normalizeMessageContent contentMarkdown = .ok content →
      st.messages.find? (fun m => m.id == messageID && m.channelId == channelID) =
        some existing →
      (∀ m ∈ (EditMessage st now sessionToken channelID messageID contentMarkdown).2.messages,
        m.createdAt ≤ m.updatedAt) ∧
      ∃ r, (EditMessage st now sessionToken channelID messageID contentMarkdown).1 = .ok r ∧
        r.updatedAt = now ∧ existing.updatedAt ≤ r.updatedAt ∧ r.createdAt ≤ r.updatedAt) := by
  constructor
  · intro messageID contentMarkdown content hContent m hm
    rw [CreateMessage_ok st now messageID sessionToken channelID contentMarkdown ident st₁
      content hAuth hCh hContent] at hm
    simp only [broadcastChannelEventLocked] at hm
    rcases List.mem_append.mp hm with hold | hnew
    · exact hInv m hold
    · simp only [List.mem_singleton] at hnew
      subst hnew
      exact le_refl _
  · intro messageID contentMarkdown content existing hContent hFind
    have hedit := EditMessage_ok st now sessionToken channelID messageID contentMarkdown ident
      st₁ content existing hAuth hCh hContent hFind
    have hexmem : existing ∈ st.messages := List.mem_of_find?_eq_some hFind
    constructor
    · intro m hm
      rw [hedit] at hm
      simp only [broadcastChannelEventLocked, updateWhere] at hm
      rcases List.mem_map.mp hm with ⟨m₀, hm₀, hmeq⟩
      by_cases hp : (m₀.id == messageID && m₀.channelId == channelID) = true
      · rw [if_pos hp] at hmeq
        subst hmeq
        exact (hMono m₀ hm₀).1
      · rw [if_neg hp] at hmeq
        subst hmeq
        exact hInv m₀ hm₀
    · refine ⟨scanMessageRow { existing with contentMarkdown := content, updatedAt := now },
        by rw [hedit], rfl, ?_, ?_⟩
      · exact (hMono existing hexmem).2
      · exact (hMono existing hexmem).1

/-- Witness for C2's amended theorem at a concrete state and time 5. -/
theorem message_updatedAt_invariant_and_nondecreasing_witness :
    normalizeMessageContent "hi there" = .ok "hi there" ∧
    (∀ m ∈ (CreateMessage sampleState 5 "m2" "tok" "general" "hi there").2.messages,
      m.createdAt ≤ m.updatedAt) ∧
    (∀ m ∈ (EditMessage sampleState 5 "tok" "general" "m1" "hi there").2.messages,
      m.createdAt ≤ m.updatedAt) := by
  have h := message_updatedAt_invariant_and_nondecreasing sampleState 5 "tok" "general"
    ⟨"pkA", "Alice"⟩ sampleState (by decide) (by decide) (by decide) (by decide)
  exact ⟨by decide, h.1 "m2" "hi there" "hi there" (by decide),
    (h.2 "m1" "hi there" "hi there" ⟨"m1", "general", "pkA", "Alice", "hello", 0, 0⟩
        (by decide) (by decide)).1⟩

/-! ### C5: `ListMessages` bound, limit normalization, chronological order -/

/-- The success shape of `ListMessages`. -/
theorem ListMessages_ok (st : ServerState) (now : Int) (sessionToken channelID : String)
    (limit : Int) (ident : SessionIdentity) (st₁ : ServerState)
    (hAuth : authenticateSessionLocked st now sessionToken = (.ok ident, st₁))
    (hCh : ensureTextChannelLocked st channelID = .ok ()) :
    ListMessages st now sessionToken channelID limit =
      (.ok
        { messages :=
            ((messagesByCreatedAtDesc (st.messages.filter fun m => m.channelId == channelID)).take
                (if limit ≤ 0 ∨ limit > maxMessageHistoryLimit then defaultMessageHistoryLimit
                  else limit).toNat).reverse.map
              scanMessageRow },
        st₁) := by
  have hframe := authenticateSessionLocked_state st now sessionToken
  rw [hAuth] at hframe
  dsimp only at hframe
  have hch' : st₁.channels = st.channels := by rw [hframe]
  have hmsg' : st₁.messages = st.messages := by rw [hframe]
  unfold ListMessages
  rw [hAuth]
  dsimp only
  rw [ensureTextChannelLocked_eq_of_channels channelID hch', hCh]
  dsimp only
  rw [hmsg']

/-- C5: with a valid session and an existing text channel, `ListMessages`
returns at most 100 messages; a requested limit outside `[1, 100]` is
replaced by 100 (the call behaves exactly like a call with limit 100);
the returned list is the reverse of the newest-first fetch of the
normalized limit, delivered oldest-first (`createdAt` ascending); and
every returned message is at least as recent as every channel message the
fetch cut off. -/
theorem ListMessages_bounded_chronological
    (st : ServerState) (now : Int) (sessionToken channelID : String) (limit : Int)
    (ident : SessionIdentity) (st₁ : ServerState)
    (hAuth : authenticateSessionLocked st now sessionToken = (.ok ident, st₁))
    (hCh : ensureTextChannelLocked st channelID = .ok ()) :
    (ListMessages st now sessionToken channelID limit).1 =
      .ok
        { messages :=
            ((messagesByCreatedAtDesc (st.messages.filter fun m => m.channelId == channelID)).take
                (if limit ≤ 0 ∨ limit > maxMessageHistoryLimit then defaultMessageHistoryLimit
                  else limit).toNat).reverse.map
              scanMessageRow } ∧
    (∀ r, (ListMessages st now sessionToken channelID limit).1 = .ok r →
      r.messages.length ≤ 100 ∧
      r.messages.Pairwise fun a b => a.createdAt ≤ b.createdAt) ∧
    ((limit ≤ 0 ∨ limit > maxMessageHistoryLimit) →
      ListMessages st now sessionToken channelID limit =
        ListMessages st now sessionToken channelID 100) ∧
    (∀ m ∈ (messagesByCreatedAtDesc
          (st.messages.filter fun m => m.channelId == channelID)).take
        (if limit ≤ 0 ∨ limit > maxMessageHistoryLimit then defaultMessageHistoryLimit
          else limit).toNat,
      ∀ m' ∈ (messagesByCreatedAtDesc
          (st.messages.filter fun m => m.channelId == channelID)).drop
        (if limit ≤ 0 ∨ limit > maxMessageHistoryLimit then defaultMessageHistoryLimit
          else limit).toNat,
      m'.createdAt ≤ m.createdAt) := by
  have hok := ListMessages_ok st now sessionToken channelID limit ident st₁ hAuth hCh
  have hsorted :
      (messagesByCreatedAtDesc
        (st.messages.filter fun m => m.channelId == channelID)).Pairwise msgNewerFirst :=
    List.sorted_insertionSort msgNewerFirst _
  refine ⟨by rw [hok], ?_, ?_, ?_⟩
  · intro r hr
    rw [hok] at hr
    simp only [Except.ok.injEq] at hr
    subst hr
    constructor
    · rw [List.length_map, List.length_reverse]
      calc ((messagesByCreatedAtDesc
            (st.messages.filter fun m => m.channelId == channelID)).take
          (if limit ≤ 0 ∨ limit > maxMessageHistoryLimit then defaultMessageHistoryLimit
            else limit).toNat).length
          ≤ (if limit ≤ 0 ∨ limit > maxMessageHistoryLimit then defaultMessageHistoryLimit
              else limit).toNat := by
            rw [List.length_take]
            exact Nat.min_le_left _ _
        _ ≤ 100 := by
            unfold defaultMessageHistoryLimit maxMessageHistoryLimit
            split
            · omega
            · next h => omega
    · rw [List.pairwise_map, List.pairwise_reverse]
      have htake := hsorted.sublist
        (List.take_sublist
          (if limit ≤ 0 ∨ limit > maxMessageHistoryLimit then defaultMessageHistoryLimit
            else limit).toNat
          (messagesByCreatedAtDesc (st.messages.filter fun m => m.channelId == channelID)))
      exact htake.imp fun h => h
  · intro hlim
    rw [hok, ListMessages_ok st now sessionToken channelID 100 ident st₁ hAuth hCh,
      if_pos hlim]
    simp [maxMessageHistoryLimit, defaultMessageHistoryLimit]
  · intro m hm m' hm'
    have hdecomp := List.take_append_drop
      (if limit ≤ 0 ∨ limit > maxMessageHistoryLimit then defaultMessageHistoryLimit
        else limit).toNat
      (messagesByCreatedAtDesc (st.messages.filter fun m => m.channelId == channelID))
    rw [← hdecomp] at hsorted
    exact (List.pairwise_append.mp hsorted).2.2 m hm m' hm'

/-- Witness for C5: listing channel `general` with the out-of-range
limit `0` returns the single stored message. -/
theorem ListMessages_bounded_chronological_witness :
    (ListMessages sampleState 10 "tok" "general" 0).1 =
      .ok
        { messages :=
            ((messagesByCreatedAtDesc
                  (sampleState.messages.filter fun m => m.channelId == "general")).take
                (if (0 : Int) ≤ 0 ∨ (0 : Int) > maxMessageHistoryLimit
                  then defaultMessageHistoryLimit else 0).toNat).reverse.map
              scanMessageRow } ∧
    ListMessages sampleState 10 "tok" "general" 0 =
      ListMessages sampleState 10 "tok" "general" 100 := by
  have h := ListMessages_bounded_chronological sampleState 10 "tok" "general" 0
    ⟨"pkA", "Alice"⟩ sampleState (by decide) (by decide)
  exact ⟨h.1, h.2.2.1 (by decide)⟩

/-! ### C6: persist first, then best-effort non-blocking broadcast -/

/-- C6: `CreateMessage` and `EditMessage` succeed and persist regardless
of any subscriber's buffer state; the matching event
(`message.created` / `message.updated`) is appended to the buffer of
every live subscriber of the channel that has room
(`length < channelEventBufferCap = 32`); a subscriber with a full buffer
keeps its buffer unchanged (the event is silently dropped for it);
subscribers of other channels are untouched. -/
theorem CreateEditMessage_broadcast_best_effort
    (st : ServerState) (now : Int) (sessionToken channelID : String)
    (ident : SessionIdentity) (st₁ : ServerState)
    (messageID contentMarkdown content : String)
    (editMessageID editMarkdown editContent : String) (existing : MessageRecord)
    (hAuth : authenticateSessionLocked st now sessionToken = (.ok ident, st₁))
    (hCh : ensureTextChannelLocked st channelID = .ok ())
    (hContent : normalizeMessageContent contentMarkdown = .ok content)
    (hEditContent : normalizeMessageContent editMarkdown = .ok editContent)
    (hFind : st.messages.find? (fun m => m.id == editMessageID && m.channelId == channelID) =
      some existing) :
    ((CreateMessage st now messageID sessionToken channelID contentMarkdown).1 =
      .ok (scanMessageRow
        ⟨messageID, channelID, ident.publicKey, ident.displayName, content, now, now⟩) ∧
    (⟨messageID, channelID, ident.publicKey, ident.displayName, content, now, now⟩ :
        MessageRecord) ∈
      (CreateMessage st now messageID sessionToken channelID contentMarkdown).2.messages ∧
    (∀ e ∈ st.streams, (e.channelId == channelID) = true →
      (e.buffer.length < channelEventBufferCap →
        ({ e with
            buffer := e.buffer ++
              [⟨"message.created",
                some (scanMessageRow
                  ⟨messageID, channelID, ident.publicKey, ident.displayName, content,
                    now, now⟩)⟩] } : StreamEntry) ∈
          (CreateMessage st now messageID sessionToken channelID contentMarkdown).2.streams) ∧
      (¬ e.buffer.length < channelEventBufferCap →
        e ∈ (CreateMessage st now messageID sessionToken channelID contentMarkdown).2.streams)) ∧
    (∀ e ∈ st.streams, (e.channelId == channelID) = false →
      e ∈ (CreateMessage st now messageID sessionToken channelID contentMarkdown).2.streams)) ∧
    ((EditMessage st now sessionToken channelID editMessageID editMarkdown).1 =
      .ok (scanMessageRow { existing with contentMarkdown := editContent, updatedAt := now }) ∧
    ({ existing with contentMarkdown := editContent, updatedAt := now } : MessageRecord) ∈
      (EditMessage st now sessionToken channelID editMessageID editMarkdown).2.messages ∧
    (∀ e ∈ st.streams, (e.channelId == channelID) = true →
      (e.buffer.length < channelEventBufferCap →
        ({ e with
            buffer := e.buffer ++
              [⟨"message.updated",
                some (scanMessageRow
                  { existing with contentMarkdown := editContent, updatedAt := now })⟩] } :
          StreamEntry) ∈
          (EditMessage st now sessionToken channelID editMessageID editMarkdown).2.streams) ∧
      (¬ e.buffer.length < channelEventBufferCap →
        e ∈ (EditMessage st now sessionToken channelID editMessageID editMarkdown).2.streams)) ∧
    (∀ e ∈ st.streams, (e.channelId == channelID) = false →
      e ∈ (EditMessage st now sessionToken channelID editMessageID editMarkdown).2.streams)) := by
  have hframe := authenticateSessionLocked_state st now sessionToken
  rw [hAuth] at hframe
  dsimp only at hframe
  have hstr' : st₁.streams = st.streams := by rw [hframe]
  have hcreate := CreateMessage_ok st now messageID sessionToken channelID contentMarkdown
    ident st₁ content hAuth hCh hContent
  have hedit := EditMessage_ok st now sessionToken channelID editMessageID editMarkdown
    ident st₁ editContent existing hAuth hCh hEditContent hFind
  constructor
  · refine ⟨by rw [hcreate], ?_, ?_, ?_⟩
    · rw [hcreate]
      simp only [broadcastChannelEventLocked]
      exact List.mem_append.mpr (Or.inr (List.mem_singleton.mpr rfl))
    · intro e he hech
      rw [hcreate]
      simp only [broadcastChannelEventLocked, hstr']
      constructor
      · intro hroom
        refine List.mem_map.mpr ⟨e, he, ?_⟩
        rw [if_pos hech]
        simp [chanTrySend, if_pos hroom]
      · intro hfull
        refine List.mem_map.mpr ⟨e, he, ?_⟩
        rw [if_pos hech]
        simp [chanTrySend, if_neg hfull]
    · intro e he hech
      rw [hcreate]
      simp only [broadcastChannelEventLocked, hstr']
      refine List.mem_map.mpr ⟨e, he, ?_⟩
      rw [if_neg (by simp [hech])]
  · refine ⟨by rw [hedit], ?_, ?_, ?_⟩
    · rw [hedit]
      simp only [broadcastChannelEventLocked, updateWhere]
      refine List.mem_map.mpr ⟨existing, List.mem_of_find?_eq_some hFind, ?_⟩
      rw [if_pos (List.find?_some hFind)]
    · intro e he hech
      rw [hedit]
      simp only [broadcastChannelEventLocked, hstr']
      constructor
      · intro hroom
        refine List.mem_map.mpr ⟨e, he, ?_⟩
        rw [if_pos hech]
        simp [chanTrySend, if_pos hroom]
      · intro hfull
        refine List.mem_map.mpr ⟨e, he, ?_⟩
        rw [if_pos hech]
        simp [chanTrySend, if_neg hfull]
    · intro e he hech
      rw [hedit]
      simp only [broadcastChannelEventLocked, hstr']
      refine List.mem_map.mpr ⟨e, he, ?_⟩
      rw [if_neg (by simp [hech])]

/-- Witness for C6 at a concrete state: the single subscriber of
`general` has an empty buffer and receives both events. -/
theorem CreateEditMessage_broadcast_best_effort_witness :
    (CreateMessage sampleState 10 "m2" "tok" "general" "hi").1 =
      .ok (scanMessageRow ⟨"m2", "general", "pkA", "Alice", "hi", 10, 10⟩) ∧
    (⟨"general", 1,
        [⟨"message.created",
          some (scanMessageRow ⟨"m2", "general", "pkA", "Alice", "hi", 10, 10⟩)⟩]⟩ :
        StreamEntry) ∈
      (CreateMessage sampleState 10 "m2" "tok" "general" "hi").2.streams := by
  have h := CreateEditMessage_broadcast_best_effort sampleState 10 "tok" "general"
    ⟨"pkA", "Alice"⟩ sampleState "m2" "hi" "hi" "m1" "hello2" "hello2"
    ⟨"m1", "general", "pkA", "Alice", "hello", 0, 0⟩
    (by decide) (by decide) (by decide) (by decide) (by decide)
  exact ⟨h.1.1,
    ((h.1.2.2.1 ⟨"general", 1, []⟩ (by decide) (by decide)).1 (by decide))⟩

/-! ### Voice-presence lemmas -/

/-- Every row surviving the liveness sweep was seen within `TTL + lag`. -/
theorem cleanup_voicePresence_live (st : ServerState) (now : Int) :
    ∀ r ∈ (cleanupVoicePresenceLocked st now).voicePresence,
      now - (voicePresenceTTL + voicePresenceMaxLag) ≤ r.lastSeenAt := by
  intro r hr
  rcases List.mem_filter.mp hr with ⟨_, hlive⟩
  simp only [Bool.not_eq_eq_eq_not, Bool.not_true, decide_eq_false_iff_not] at hlive
  exact Int.not_lt.mp hlive

/-- The sweep only removes rows. -/
theorem cleanup_voicePresence_subset (st : ServerState) (now : Int) :
    ∀ r ∈ (cleanupVoicePresenceLocked st now).voicePresence, r ∈ st.voicePresence :=
  fun _ hr => (List.mem_filter.mp hr).1

/-- The upsert preserves within-`TTL+lag` liveness of the table: touched
rows are stamped `now`, the rest keep their (live) stamp. -/
theorem upsert_voicePresence_live (st : ServerState) (now : Int) (identity : SessionIdentity)
    (channelID : String) (update : VoicePresenceUpdate)
    (hlive : ∀ r ∈ st.voicePresence,
      now - (voicePresenceTTL + voicePresenceMaxLag) ≤ r.lastSeenAt) :
    ∀ r ∈ (upsertVoicePresenceLocked st now identity channelID update).voicePresence,
      now - (voicePresenceTTL + voicePresenceMaxLag) ≤ r.lastSeenAt := by
  have hnowlive : now - (voicePresenceTTL + voicePresenceMaxLag) ≤ now := by
    unfold voicePresenceTTL voicePresenceMaxLag
    omega
  intro r hr
  unfold upsertVoicePresenceLocked at hr
  split at hr
  · simp only [updateWhere] at hr
    rcases List.mem_map.mp hr with ⟨r₀, hr₀, hreq⟩
    by_cases hp : (r₀.clientPublicKey == identity.publicKey) = true
    · rw [if_pos hp] at hreq
      subst hreq
      exact hnowlive
    · rw [if_neg hp] at hreq
      subst hreq
      exact hlive r₀ hr₀
  · simp only at hr
    rcases List.mem_append.mp hr with hold | hnew
    · exact hlive r hold
    · simp only [List.mem_singleton] at hnew
      subst hnew
      exact hnowlive

/-- The success shape of `GetVoiceChannelState`. -/
theorem GetVoiceChannelState_ok (st : ServerState) (now : Int) (sessionToken channelID : String)
    (ident : SessionIdentity) (st₁ : ServerState)
    (hAuth : authenticateSessionLocked st now sessionToken = (.ok ident, st₁))
    (hCh : ensureVoiceChannelLocked st channelID = .ok ()) :
    GetVoiceChannelState st now sessionToken channelID =
      (.ok
        { channelId := channelID
          participants :=
            (voicePresenceByJoinedAtAsc
                ((cleanupVoicePresenceLocked st₁ now).voicePresence.filter fun r =>
                  r.channelId == channelID)).map
              scanVoiceParticipant },
        cleanupVoicePresenceLocked st₁ now) := by
  have hframe := authenticateSessionLocked_state st now sessionToken
  rw [hAuth] at hframe
  dsimp only at hframe
  have hch' : st₁.channels = st.channels := by rw [hframe]
  unfold GetVoiceChannelState
  rw [hAuth]
  dsimp only
  rw [ensureVoiceChannelLocked_eq_of_channels channelID hch', hCh]

/-- The success shape of `BeginVoiceJoin`. -/
theorem BeginVoiceJoin_ok (st : ServerState) (now : Int) (sessionToken channelID : String)
    (ident : SessionIdentity) (st₁ : ServerState)
    (hAuth : authenticateSessionLocked st now sessionToken = (.ok ident, st₁))
    (hCh : ensureVoiceChannelLocked st channelID = .ok ()) :
    BeginVoiceJoin st now sessionToken channelID =
      (.ok
        { identity := ident
          channelID := channelID
          roomName :=
            VoiceRoomName
              (upsertVoicePresenceLocked (cleanupVoicePresenceLocked st₁ now) now ident channelID
                  ⟨1, 0, false, false, false⟩).serverID
              channelID }
      , upsertVoicePresenceLocked (cleanupVoicePresenceLocked st₁ now) now ident channelID
          ⟨1, 0, false, false, false⟩) := by
  have hframe := authenticateSessionLocked_state st now sessionToken
  rw [hAuth] at hframe
  dsimp only at hframe
  have hch' : st₁.channels = st.channels := by rw [hframe]
  unfold BeginVoiceJoin
  rw [hAuth]
  dsimp only
  rw [ensureVoiceChannelLocked_eq_of_channels channelID hch', hCh]

/-- The success shape of `TouchVoicePresence`. -/
theorem TouchVoicePresence_ok (st : ServerState) (now : Int) (sessionToken channelID : String)
    (update : VoicePresenceUpdate) (ident : SessionIdentity) (st₁ : ServerState)
    (hAuth : authenticateSessionLocked st now sessionToken = (.ok ident, st₁))
    (hCh : ensureVoiceChannelLocked st channelID = .ok ()) :
    TouchVoicePresence st now sessionToken channelID update =
      (.ok (),
        upsertVoicePresenceLocked (cleanupVoicePresenceLocked st₁ now) now ident channelID
          (clampVoicePresenceUpdate update)) := by
  have hframe := authenticateSessionLocked_state st now sessionToken
  rw [hAuth] at hframe
  dsimp only at hframe
  have hch' : st₁.channels = st.channels := by rw [hframe]
  unfold TouchVoicePresence
  rw [hAuth]
  dsimp only
  rw [ensureVoiceChannelLocked_eq_of_channels channelID hch', hCh]

/-- The success shape of `LeaveVoiceChannel`. -/
theorem LeaveVoiceChannel_ok (st : ServerState) (now : Int) (sessionToken : String)
    (ident : SessionIdentity) (st₁ : ServerState)
    (hAuth : authenticateSessionLocked st now sessionToken = (.ok ident, st₁)) :
    LeaveVoiceChannel st now sessionToken =
      (.ok (),
        { cleanupVoicePresenceLocked st₁ now with
          voicePresence :=
            (cleanupVoicePresenceLocked st₁ now).voicePresence.filter fun r =>
              !(r.clientPublicKey == ident.publicKey) }) := by
  unfold LeaveVoiceChannel
  rw [hAuth]

/-! ### C7: the liveness sweep and `getVoiceState` -/

/-- C7: every voice operation sweeps rows whose `lastSeenAt` is older
than `TTL + maxLag = 35s` before acting, so after any successful voice
operation every surviving presence row was seen within the window, and a
row that is stale at call time is absent from the participants returned
by `GetVoiceChannelState` — no participant carries its client key. -/
theorem voice_liveness_sweep
    (st : ServerState) (now : Int) (sessionToken channelID : String)
    (ident : SessionIdentity) (st₁ : ServerState) (update : VoicePresenceUpdate)
    (hAuth : authenticateSessionLocked st now sessionToken = (.ok ident, st₁))
    (hCh : ensureVoiceChannelLocked st channelID = .ok ())
    (hNodup : (st.voicePresence.map (·.clientPublicKey)).Nodup) :
    (∀ r ∈ (BeginVoiceJoin st now sessionToken channelID).2.voicePresence,
      now - (voicePresenceTTL + voicePresenceMaxLag) ≤ r.lastSeenAt) ∧
    (∀ r ∈ (TouchVoicePresence st now sessionToken channelID update).2.voicePresence,
      now - (voicePresenceTTL + voicePresenceMaxLag) ≤ r.lastSeenAt) ∧
    (∀ r ∈ (LeaveVoiceChannel st now sessionToken).2.voicePresence,
      now - (voicePresenceTTL + voicePresenceMaxLag) ≤ r.lastSeenAt) ∧
    (∀ r ∈ (GetVoiceChannelState st now sessionToken channelID).2.voicePresence,
      now - (voicePresenceTTL + voicePresenceMaxLag) ≤ r.lastSeenAt) ∧
    (∀ res, (GetVoiceChannelState st now sessionToken channelID).1 = .ok res →
      (∀ p ∈ res.participants,
        now - (voicePresenceTTL + voicePresenceMaxLag) ≤ p.lastSeenAt) ∧
      (∀ r₀ ∈ st.voicePresence,
        r₀.lastSeenAt < now - (voicePresenceTTL + voicePresenceMaxLag) →
        ∀ p ∈ res.participants, p.publicKey ≠ r₀.clientPublicKey)) := by
  have hframe := authenticateSessionLocked_state st now sessionToken
  rw [hAuth] at hframe
  dsimp only at hframe
  have hvp' : st₁.voicePresence = st.voicePresence := by rw [hframe]
  have hcleanlive := cleanup_voicePresence_live st₁ now
  have hmem_of_sorted : ∀ p ∈ (voicePresenceByJoinedAtAsc
      ((cleanupVoicePresenceLocked st₁ now).voicePresence.filter fun r =>
        r.channelId == channelID)).map scanVoiceParticipant,
      ∃ r, r ∈ (cleanupVoicePresenceLocked st₁ now).voicePresence ∧
        p = scanVoiceParticipant r := by
    intro p hp
    rcases List.mem_map.mp hp with ⟨r, hrsorted, hpr⟩
    have hrfilter : r ∈ (cleanupVoicePresenceLocked st₁ now).voicePresence.filter fun r =>
        r.channelId == channelID :=
      (List.perm_insertionSort _ _).mem_iff.mp hrsorted
    exact ⟨r, (List.mem_filter.mp hrfilter).1, hpr.symm⟩
  refine ⟨?_, ?_, ?_, ?_, ?_⟩
  · rw [BeginVoiceJoin_ok st now sessionToken channelID ident st₁ hAuth hCh]
    exact upsert_voicePresence_live _ now ident channelID _ hcleanlive
  · rw [TouchVoicePresence_ok st now sessionToken channelID update ident st₁ hAuth hCh]
    exact upsert_voicePresence_live _ now ident channelID _ hcleanlive
  · rw [LeaveVoiceChannel_ok st now sessionToken ident st₁ hAuth]
    intro r hr
    exact hcleanlive r (List.mem_filter.mp hr).1
  · rw [GetVoiceChannelState_ok st now sessionToken channelID ident st₁ hAuth hCh]
    exact hcleanlive
  · intro res hres
    rw [GetVoiceChannelState_ok st now sessionToken channelID ident st₁ hAuth hCh] at hres
    simp only [Except.ok.injEq] at hres
    subst hres
    constructor
    · intro p hp
      rcases hmem_of_sorted p hp with ⟨r, hrclean, hpr⟩
      subst hpr
      exact hcleanlive r hrclean
    · intro r₀ hr₀ hstale p hp hkey
      rcases hmem_of_sorted p hp with ⟨r, hrclean, hpr⟩
      subst hpr
      have hrmem : r ∈ st.voicePresence := by
        have := cleanup_voicePresence_subset st₁ now r hrclean
        rwa [hvp'] at this
      have hrr₀ : r = r₀ :=
        List.inj_on_of_nodup_map hNodup hrmem hr₀ hkey
      subst hrr₀
      have := hcleanlive r hrclean
      omega

/-- Witness for C7 at a concrete state: the presence row of `pkA`
(`lastSeenAt = 0`) is stale at time 100 and dropped by the sweep. -/
theorem voice_liveness_sweep_witness :
    (∀ r ∈ (TouchVoicePresence sampleState 100 "tok" "voice-main"
        ⟨2, 1, true, false, false⟩).2.voicePresence,
      100 - (voicePresenceTTL + voicePresenceMaxLag) ≤ r.lastSeenAt) ∧
    (GetVoiceChannelState sampleState 100 "tok" "voice-main").1 =
      .ok ⟨"voice-main", []⟩ := by
  have h := voice_liveness_sweep sampleState 100 "tok" "voice-main" ⟨"pkA", "Alice"⟩
    sampleState ⟨2, 1, true, false, false⟩ (by decide) (by decide) (by decide)
  exact ⟨h.2.1, by decide⟩

/-- Filtering with a predicate the first `p`-match satisfies keeps it the
first `p`-match. -/
theorem find?_filter_of_find? {α : Type} (p q : α → Bool) (l : List α) (r : α)
    (hf : l.find? p = some r) (hq : q r = true) : (l.filter q).find? p = some r := by
  induction l with
  | nil => simp at hf
  | cons hd tl ih =>
    by_cases hphd : p hd
    · rw [List.find?_cons_of_pos _ hphd] at hf
      simp only [Option.some.injEq] at hf
      subst hf
      rw [List.filter_cons_of_pos hq, List.find?_cons_of_pos _ hphd]
    · rw [List.find?_cons_of_neg _ hphd] at hf
      by_cases hqhd : q hd
      · rw [List.filter_cons_of_pos hqhd, List.find?_cons_of_neg _ hphd]
        exact ih hf
      · rw [List.filter_cons_of_neg (by simpa using hqhd)]
        exact ih hf

/-! ### C8: `joinedAt` across presence touches -/

/-- C8: for a client with an existing presence row `r` (surviving the
sweep), `TouchVoicePresence` and `BeginVoiceJoin` into channel
`channelID` succeed and rewrite the client's row so that `lastSeenAt`
becomes the current time, the display name and the (clamped, for touch)
stream counts and capability flags come from the update, and `joinedAt`
is `r.joinedAt` exactly when `r.channelId = channelID` and the current
time otherwise. -/
theorem voice_touch_preserves_joinedAt_same_channel
    (st : ServerState) (now : Int) (sessionToken channelID : String)
    (update : VoicePresenceUpdate) (ident : SessionIdentity) (st₁ : ServerState)
    (r : VoicePresenceRow)
    (hAuth : authenticateSessionLocked st now sessionToken = (.ok ident, st₁))
    (hCh : ensureVoiceChannelLocked st channelID = .ok ())
    (hr : st.voicePresence.find? (fun x => x.clientPublicKey == ident.publicKey) = some r)
    (hlive : now - (voicePresenceTTL + voicePresenceMaxLag) ≤ r.lastSeenAt) :
    (TouchVoicePresence st now sessionToken channelID update).1 = .ok () ∧
    (TouchVoicePresence st now sessionToken channelID update).2.voicePresence.find?
        (fun x => x.clientPublicKey == ident.publicKey) =
      some
        { clientPublicKey := r.clientPublicKey
          channelId := channelID
          displayName := ident.displayName
          joinedAt := if r.channelId == channelID then r.joinedAt else now
          lastSeenAt := now
          audioStreams := (clampVoicePresenceUpdate update).audioStreams
          videoStreams := (clampVoicePresenceUpdate update).videoStreams
          cameraEnabled := (clampVoicePresenceUpdate update).cameraEnabled
          screenEnabled := (clampVoicePresenceUpdate update).screenEnabled
          screenAudioEnabled := (clampVoicePresenceUpdate update).screenAudioEnabled } ∧
    (BeginVoiceJoin st now sessionToken channelID).2.voicePresence.find?
        (fun x => x.clientPublicKey == ident.publicKey) =
      some
        { clientPublicKey := r.clientPublicKey
          channelId := channelID
          displayName := ident.displayName
          joinedAt := if r.channelId == channelID then r.joinedAt else now
          lastSeenAt := now
          audioStreams := 1
          videoStreams := 0
          cameraEnabled := false
          screenEnabled := false
          screenAudioEnabled := false } := by
  have hframe := authenticateSessionLocked_state st now sessionToken
  rw [hAuth] at hframe
  dsimp only at hframe
  have hvp' : st₁.voicePresence = st.voicePresence := by rw [hframe]
  have hpr := List.find?_some hr
  have hclean : (cleanupVoicePresenceLocked st₁ now).voicePresence.find?
      (fun x => x.clientPublicKey == ident.publicKey) = some r := by
    unfold cleanupVoicePresenceLocked
    dsimp only
    rw [hvp']
    exact find?_filter_of_find? _ _ _ r hr
      (by simpa using Int.not_lt.mpr hlive)
  have hany : ∀ upd : VoicePresenceUpdate,
      (upsertVoicePresenceLocked (cleanupVoicePresenceLocked st₁ now) now ident channelID
          upd).voicePresence.find?
        (fun x => x.clientPublicKey == ident.publicKey) =
      some
        { clientPublicKey := r.clientPublicKey
          channelId := channelID
          displayName := ident.displayName
          joinedAt := if r.channelId == channelID then r.joinedAt else now
          lastSeenAt := now
          audioStreams := upd.audioStreams
          videoStreams := upd.videoStreams
          cameraEnabled := upd.cameraEnabled
          screenEnabled := upd.screenEnabled
          screenAudioEnabled := upd.screenAudioEnabled } := by
    intro upd
    unfold upsertVoicePresenceLocked
    rw [if_pos]
    · dsimp only
      have hupd := find?_updateWhere
        (fun x : VoicePresenceRow => x.clientPublicKey == ident.publicKey)
        (fun x : VoicePresenceRow => x.clientPublicKey == ident.publicKey)
        (fun x : VoicePresenceRow =>
          { clientPublicKey := x.clientPublicKey
            channelId := channelID
            displayName := ident.displayName
            joinedAt := if x.channelId == channelID then x.joinedAt else now
            lastSeenAt := now
            audioStreams := upd.audioStreams
            videoStreams := upd.videoStreams
            cameraEnabled := upd.cameraEnabled
            screenEnabled := upd.screenEnabled
            screenAudioEnabled := upd.screenAudioEnabled })
        (fun a => rfl)
        (cleanupVoicePresenceLocked st₁ now).voicePresence
      rw [hupd, hclean]
      simp [hpr]
      intro hcontra
      exact absurd (by simpa using hpr) hcontra
    · exact List.any_eq_true.mpr
        ⟨r, List.mem_of_find?_eq_some hclean, hpr⟩
  refine ⟨?_, ?_, ?_⟩
  · rw [TouchVoicePresence_ok st now sessionToken channelID update ident st₁ hAuth hCh]
  · rw [TouchVoicePresence_ok st now sessionToken channelID update ident st₁ hAuth hCh]
    exact hany (clampVoicePresenceUpdate update)
  · rw [BeginVoiceJoin_ok st now sessionToken channelID ident st₁ hAuth hCh]
    exact hany ⟨1, 0, false, false, false⟩

/-- Witness for C8 at a concrete state: touching the same channel keeps
`joinedAt = 0`; the stream counts are clamped from 99 to 16. -/
theorem voice_touch_preserves_joinedAt_same_channel_witness :
    (TouchVoicePresence sampleState 10 "tok" "voice-main" ⟨99, -3, true, false, true⟩).1 =
      .ok () ∧
    (TouchVoicePresence sampleState 10 "tok" "voice-main"
        ⟨99, -3, true, false, true⟩).2.voicePresence.find?
        (fun x => x.clientPublicKey == "pkA") =
      some ⟨"pkA", "voice-main", "Alice", 0, 10, 16, 0, true, false, true⟩ := by
  have h := voice_touch_preserves_joinedAt_same_channel sampleState 10 "tok" "voice-main"
    ⟨99, -3, true, false, true⟩ ⟨"pkA", "Alice"⟩ sampleState
    ⟨"pkA", "voice-main", "Alice", 0, 0, 1, 0, false, false, false⟩
    (by decide) (by decide) (by decide) (by decide)
  refine ⟨h.1, ?_⟩
  have h2 := h.2.1
  rw [h2]
  decide

/-! ### C9: failing `FinishConnect` calls leave the state intact -/

/-- `lookupInvite` fails only with `invite_not_found`. -/
theorem lookupInvite_error (st : ServerState) (inviteID : String) (e : APIError)
    (h : lookupInvite st inviteID = .error e) :
    e = newAPIError 404 "invite_not_found" "invite does not exist" := by
  unfold lookupInvite at h
  split at h <;> simp_all

/-- C9: whenever `FinishConnect` returns an error, the `invites`,
`sessions` and `members` tables are exactly as before the call (no
session is minted, no member is upserted, `usedAt` is not written), and
the pending challenge for the invite is deleted exactly when the error is
`challenge_expired`; every other error path leaves the challenge map
untouched. -/
theorem FinishConnect_error_durable_state_unchanged
    (cr : Crypto) (st : ServerState) (now : Int) (newSessionToken : String)
    (req : FinishRequest) (e : APIError) (st' : ServerState)
    (h : FinishConnect cr st now newSessionToken req = (.error e, st')) :
    st'.invites = st.invites ∧ st'.sessions = st.sessions ∧ st'.members = st.members ∧
    st'.challenges =
      (if e.code = "challenge_expired"
        then eraseChallenge st.challenges (goTrimSpace req.inviteID)
        else st.challenges) := by
  unfold FinishConnect at h
  dsimp only at h
  rcases hlk : lookupInvite st (goTrimSpace req.inviteID) with e' | invite
  · have he' := lookupInvite_error _ _ _ hlk
    subst he'
    rw [hlk] at h
    dsimp only at h
    repeat' split at h
    all_goals (
      rw [Prod.mk.injEq] at h
      obtain ⟨he, hst⟩ := h
      first
        | exact Except.noConfusion he
        | (rw [Except.error.injEq] at he
           subst he
           subst hst
           refine ⟨rfl, rfl, rfl, ?_⟩
           split
           · first | rfl | (rename_i hc; exact absurd hc (by decide))
           · first | rfl | (rename_i hc; exact absurd (by decide) hc)))
  · rw [hlk] at h
    dsimp only at h
    rcases hmk : markInviteUsed (goTrimSpace req.inviteID) now st.invites with ⟨invites2, rows2⟩
    rw [hmk] at h
    dsimp only at h
    by_cases hz : rows2 = 0
    · have h1 : updateWhere (inviteUnusedWithId (goTrimSpace req.inviteID))
          (fun i => { i with usedAt := some now }) st.invites = invites2 :=
        congrArg Prod.fst hmk
      have h2 : rowsMatching (inviteUnusedWithId (goTrimSpace req.inviteID)) st.invites =
          rows2 :=
        congrArg Prod.snd hmk
      have hi : invites2 = st.invites := by
        rw [← h1]
        apply updateWhere_eq_of_countP_zero
        rw [rowsMatching] at h2
        rw [h2, hz]
      rw [if_pos hz] at h
      rw [hi] at h
      repeat' split at h
      all_goals (
        rw [Prod.mk.injEq] at h
        obtain ⟨he, hst⟩ := h
        first
          | exact Except.noConfusion he
          | (rw [Except.error.injEq] at he
             subst he
             subst hst
             refine ⟨rfl, rfl, rfl, ?_⟩
             split
             · first | rfl | (rename_i hc; exact absurd hc (by decide))
             · first | rfl | (rename_i hc; exact absurd (by decide) hc)))
    · rw [if_neg hz] at h
      repeat' split at h
      all_goals (
        rw [Prod.mk.injEq] at h
        obtain ⟨he, hst⟩ := h
        first
          | exact Except.noConfusion he
          | (rw [Except.error.injEq] at he
             subst he
             subst hst
             refine ⟨rfl, rfl, rfl, ?_⟩
             split
             · first | rfl | (rename_i hc; exact absurd hc (by decide))
             · first | rfl | (rename_i hc; exact absurd (by decide) hc)))


/-- Witness for C9: a challenge-mismatch failure at a concrete state
leaves the state exactly as it was. -/
theorem FinishConnect_error_durable_state_unchanged_witness :
    FinishConnect sampleCrypto sampleState 10 "tk" ⟨"inv1", "clientPK", "WRONG", "sig", ⟨"B"⟩⟩ =
      (.error (newAPIError 401 "challenge_mismatch" "challenge mismatch"), sampleState) ∧
    sampleState.challenges =
      (if (newAPIError 401 "challenge_mismatch" "challenge mismatch").code = "challenge_expired"
        then eraseChallenge sampleState.challenges (goTrimSpace "inv1")
        else sampleState.challenges) :=
  ⟨by decide,
    (FinishConnect_error_durable_state_unchanged sampleCrypto sampleState 10 "tk"
        ⟨"inv1", "clientPK", "WRONG", "sig", ⟨"B"⟩⟩
        (newAPIError 401 "challenge_mismatch" "challenge mismatch") sampleState
        (by decide)).2.2.2⟩

/-! ### C1: at-most-once invite redemption -/

/-- A `FinishConnect` request that passes every check other than the
used-invite test, relative to state `st` and call time `now`: non-blank
fields, the client key bound by the invite, a matching unexpired pending
challenge, well-formed key/signature/challenge encodings and a signature
that verifies. -/
structure validFinishRequest (cr : Crypto) (st : ServerState) (now : Int)
    (req : FinishRequest) : Prop where
  inviteID_ne : goTrimSpace req.inviteID ≠ ""
  clientKey_ne : goTrimSpace req.clientPublicKey ≠ ""
  challenge_ne : goTrimSpace req.challenge ≠ ""
  signature_ne : goTrimSpace req.signature ≠ ""
  allowed : ∀ inv, st.invites.find? (fun i => i.id == goTrimSpace req.inviteID) = some inv →
    req.clientPublicKey = inv.allowedClientPublicKey
  challenge_ok : ∃ ch, lookupChallenge st.challenges (goTrimSpace req.inviteID) = some ch ∧
    ¬ ch.expiresAt < now ∧ req.challenge = ch.challenge
  decode_ok : ∃ pub sig cb, cr.decodePublicKey req.clientPublicKey = some pub ∧
    cr.decodeSignature req.signature = some sig ∧ cr.decodeBase64 req.challenge = some cb ∧
    cr.verify pub (cr.signaturePayloadHash cb (goTrimSpace req.inviteID) st.serverFingerprint)
      sig = true

/-- `upsertMemberLocked` only rewrites the member table. -/
theorem upsertMemberLocked_eq (st : ServerState) (now : Int) (pk name : String) :
    upsertMemberLocked st now pk name =
      { st with members := (upsertMemberLocked st now pk name).members } := by
  unfold upsertMemberLocked
  split <;> rfl

/-- A `FinishConnect` call against an invite whose `usedAt` is already
set fails with `invite_used` before touching anything. -/
theorem FinishConnect_already_used
    (cr : Crypto) (st : ServerState) (now : Int) (tk : String) (req : FinishRequest)
    (inv : InviteRecord)
    (hfind : st.invites.find? (fun i => i.id == goTrimSpace req.inviteID) = some inv)
    (hused : inv.usedAt ≠ none)
    (hiid : goTrimSpace req.inviteID ≠ "")
    (hck : goTrimSpace req.clientPublicKey ≠ "")
    (hch : goTrimSpace req.challenge ≠ "")
    (hsg : goTrimSpace req.signature ≠ "") :
    FinishConnect cr st now tk req =
      (.error (newAPIError 403 "invite_used" "invite has already been used"), st) := by
  have hlk : lookupInvite st (goTrimSpace req.inviteID) = .ok inv := by
    unfold lookupInvite
    rw [hfind]
  unfold FinishConnect
  dsimp only
  rw [if_neg hiid, if_neg (by simp [hck, hch, hsg]), hlk]
  dsimp only
  rw [if_pos hused]

/-- The success shape of `FinishConnect` on an unused invite with a valid
request: the call returns the server identity bundle with the fresh
session token, the invite's `usedAt` is stamped with the call time, and
exactly one session row (carrying the fresh token) is appended. -/
theorem FinishConnect_ok_shape
    (cr : Crypto) (st : ServerState) (now : Int) (tk : String) (req : FinishRequest)
    (inv : InviteRecord)
    (hfind : st.invites.find? (fun i => i.id == goTrimSpace req.inviteID) = some inv)
    (hunused : inv.usedAt = none)
    (hv : validFinishRequest cr st now req) :
    ∃ st', FinishConnect cr st now tk req =
        (.ok ⟨st.serverID, st.serverName, st.serverFingerprint, st.livekitURL, st.channels, tk⟩,
          st') ∧
      st'.invites.find? (fun i => i.id == goTrimSpace req.inviteID) =
        some { inv with usedAt := some now } ∧
      st'.sessions = st.sessions ++ [⟨tk, req.clientPublicKey, now, now + sessionTTL⟩] := by
  have hlk : lookupInvite st (goTrimSpace req.inviteID) = .ok inv := by
    unfold lookupInvite
    rw [hfind]
  obtain ⟨ch, hch, hnexp, hcheq⟩ := hv.challenge_ok
  obtain ⟨pub, sig, cb, hpub, hsig, hcb, hver⟩ := hv.decode_ok
  have hpinv : inviteUnusedWithId (goTrimSpace req.inviteID) inv = true := by
    unfold inviteUnusedWithId
    rw [List.find?_some hfind, hunused]
    rfl
  have hrows : rowsMatching (inviteUnusedWithId (goTrimSpace req.inviteID)) st.invites ≠ 0 :=
    countP_ne_zero_of_find? hfind hpinv
  unfold FinishConnect
  dsimp only
  rw [if_neg hv.inviteID_ne,
    if_neg (by simp [hv.clientKey_ne, hv.challenge_ne, hv.signature_ne]), hlk]
  dsimp only
  rw [if_neg (by simp [hunused]), if_neg (by simp [hv.allowed inv hfind]), hch]
  dsimp only
  rw [if_neg hnexp, if_neg (by simp [hcheq]), hpub]
  dsimp only
  rw [hsig]
  dsimp only
  rw [hcb]
  dsimp only
  rw [if_neg (by simp [hver])]
  dsimp only [markInviteUsed]
  rw [if_neg hrows]
  rw [upsertMemberLocked_eq]
  refine ⟨_, rfl, ?_, rfl⟩
  show (updateWhere (inviteUnusedWithId (goTrimSpace req.inviteID))
      (fun i => { i with usedAt := some now }) st.invites).find?
      (fun i => i.id == goTrimSpace req.inviteID) = some { inv with usedAt := some now }
  have hupd := find?_updateWhere
    (fun i : InviteRecord => i.id == goTrimSpace req.inviteID)
    (inviteUnusedWithId (goTrimSpace req.inviteID))
    (fun i : InviteRecord => { i with usedAt := some now })
    (fun a => rfl)
    st.invites
  rw [hupd, hfind]
  simp only [Option.map_some']
  rw [if_pos hpinv]

/-- Once the invite is used, a whole serialized batch of well-formed
`FinishConnect` calls for it fails uniformly with `invite_used` and
leaves the state untouched. -/
theorem runFinishSeq_all_used
    (cr : Crypto) (stX : ServerState) (iid : String) (invX : InviteRecord) (t : Int)
    (cs : List FinishCall)
    (hfind : stX.invites.find? (fun i => i.id == iid) = some invX)
    (hused : invX.usedAt = some t)
    (hcs : ∀ c ∈ cs, goTrimSpace c.req.inviteID = iid ∧
      goTrimSpace c.req.inviteID ≠ "" ∧ goTrimSpace c.req.clientPublicKey ≠ "" ∧
      goTrimSpace c.req.challenge ≠ "" ∧ goTrimSpace c.req.signature ≠ "") :
    runFinishSeq cr stX cs =
      (cs.map fun _ => .error (newAPIError 403 "invite_used" "invite has already been used"),
        stX) := by
  induction cs with
  | nil => rfl
  | cons c cs' ih =>
    obtain ⟨hcid, hne, hck, hch, hsg⟩ := hcs c (List.mem_cons_self c cs')
    have hstep := FinishConnect_already_used cr stX c.now c.newSessionToken c.req invX
      (by rw [hcid]; exact hfind) (by rw [hused]; simp) hne hck hch hsg
    unfold runFinishSeq
    rw [hstep]
    dsimp only
    rw [ih fun c' hc' => hcs c' (List.mem_cons_of_mem c hc')]
    rfl

/-- C1: starting from a state whose invite `iid` is unused, a serialized
sequence of `FinishConnect` calls for `iid`, each valid (well-formed,
bound key, matching live challenge, verifying signature) against the
initial state, produces exactly one success — the first call — and every
other call fails with the `invite_used` error; `usedAt` is written once,
by the winning call. -/
theorem FinishConnect_single_redemption
    (cr : Crypto) (st : ServerState) (iid : String) (inv : InviteRecord)
    (calls : List FinishCall)
    (hfind : st.invites.find? (fun i => i.id == iid) = some inv)
    (hunused : inv.usedAt = none)
    (hiid : ∀ c ∈ calls, goTrimSpace c.req.inviteID = iid)
    (hvalid : ∀ c ∈ calls, validFinishRequest cr st c.now c.req)
    (hne : calls ≠ []) :
    ∃ fr rest, (runFinishSeq cr st calls).1 = .ok fr :: rest ∧
      rest.length + 1 = calls.length ∧
      ∀ r ∈ rest, r = .error (newAPIError 403 "invite_used" "invite has already been used") := by
  rcases calls with _ | ⟨c, cs⟩
  · exact absurd rfl hne
  obtain ⟨st₁, hstep, hfind₁, _⟩ :=
    FinishConnect_ok_shape cr st c.now c.newSessionToken c.req inv
      (by rw [hiid c (List.mem_cons_self c cs)]; exact hfind) hunused
      (hvalid c (List.mem_cons_self c cs))
  have hcs : ∀ c' ∈ cs, goTrimSpace c'.req.inviteID = iid ∧
      goTrimSpace c'.req.inviteID ≠ "" ∧ goTrimSpace c'.req.clientPublicKey ≠ "" ∧
      goTrimSpace c'.req.challenge ≠ "" ∧ goTrimSpace c'.req.signature ≠ "" := by
    intro c' hc'
    have hv' := hvalid c' (List.mem_cons_of_mem c hc')
    exact ⟨hiid c' (List.mem_cons_of_mem c hc'), hv'.inviteID_ne, hv'.clientKey_ne,
      hv'.challenge_ne, hv'.signature_ne⟩
  have hrest := runFinishSeq_all_used cr st₁ iid { inv with usedAt := some c.now } c.now cs
    (by rw [← hiid c (List.mem_cons_self c cs)]; exact hfind₁) rfl hcs
  refine ⟨⟨st.serverID, st.serverName, st.serverFingerprint, st.livekitURL, st.channels,
      c.newSessionToken⟩,
    cs.map fun _ => .error (newAPIError 403 "invite_used" "invite has already been used"),
    ?_, by simp, ?_⟩
  · unfold runFinishSeq
    rw [hstep]
    dsimp only
    rw [hrest]
  · intro r hr
    rcases List.mem_map.mp hr with ⟨_, _, hreq⟩
    exact hreq.symm

/-- Witness for C1: two serialized valid redemptions of `inv1`; the first
succeeds, the second fails with `invite_used`. -/
theorem FinishConnect_single_redemption_witness :
    ∃ fr rest,
      (runFinishSeq sampleCrypto sampleState
        [⟨10, "tk1", ⟨"inv1", "clientPK", "chal", "sig", ⟨"B"⟩⟩⟩,
          ⟨11, "tk2", ⟨"inv1", "clientPK", "chal", "sig", ⟨"B"⟩⟩⟩]).1 = .ok fr :: rest ∧
      rest.length + 1 = 2 ∧
      ∀ r ∈ rest, r = .error (newAPIError 403 "invite_used" "invite has already been used") := by
  have hv : ∀ c ∈ ([⟨10, "tk1", ⟨"inv1", "clientPK", "chal", "sig", ⟨"B"⟩⟩⟩,
      ⟨11, "tk2", ⟨"inv1", "clientPK", "chal", "sig", ⟨"B"⟩⟩⟩] : List FinishCall),
      validFinishRequest sampleCrypto sampleState c.now c.req := by
    intro c hc
    have hreq : c.req = ⟨"inv1", "clientPK", "chal", "sig", ⟨"B"⟩⟩ ∧ (c.now = 10 ∨ c.now = 11) := by
      simp only [List.mem_cons, List.not_mem_nil, or_false] at hc
      rcases hc with hc | hc
      · rw [hc]; exact ⟨rfl, Or.inl rfl⟩
      · rw [hc]; exact ⟨rfl, Or.inr rfl⟩
    obtain ⟨hreq, hnow⟩ := hreq
    rw [hreq]
    refine ⟨by decide, by decide, by decide, by decide, ?_, ?_, ?_⟩
    · intro inv h
      rw [show sampleState.invites.find?
          (fun i => i.id == goTrimSpace (⟨"inv1", "clientPK", "chal", "sig",
            ⟨"B"⟩⟩ : FinishRequest).inviteID) =
          some ⟨"inv1", "clientPK", "", 0, none⟩ from by decide] at h
      cases h
      rfl
    · refine ⟨⟨"chal", 100⟩, by decide, ?_, by decide⟩
      rcases hnow with hnow | hnow <;> rw [hnow] <;> decide
    · exact ⟨[1], [2], [3], by decide, by decide, by decide, by decide⟩
  exact FinishConnect_single_redemption sampleCrypto sampleState "inv1"
    ⟨"inv1", "clientPK", "", 0, none⟩ _ (by decide) (by decide)
    (by intro c hc
        simp only [List.mem_cons, List.not_mem_nil, or_false] at hc
        rcases hc with hc | hc
        · rw [hc]; decide
        · rw [hc]; decide)
    hv (by simp)

/-! ### C3: the admin skew check precedes signature verification -/

/-- C3 counterexample: a request whose `issuedAt` parses as RFC3339 and
lies 4000 seconds (far beyond 2 minutes) before server time, carrying the
signature value `""`, is rejected with `invalid_request` — not with the
stale-request error — because the required-fields check runs first. So
the claim's "for every signature value" fails at the empty signature. -/
theorem admin_stale_empty_signature_not_stale_code :
    sampleCrypto.parseRFC3339 "T1000" = some 1000 ∧
    5000 - 1000 > adminRequestMaxSkew ∧
    (CreateInviteByAdminClient sampleCrypto sampleState 5000 "newinv"
        ⟨"adminPK", "clientPK", "lbl", "T1000", ""⟩).1 =
      .error (newAPIError 400 "invalid_request"
        "adminPublicKey, clientPublicKey, issuedAt and signature are required") ∧
    (ListInvitesByAdminClient sampleCrypto sampleState 5000 ⟨"adminPK", "T1000", ""⟩).1 =
      .error (newAPIError 400 "invalid_request"
        "adminPublicKey, issuedAt and signature are required") := by
  decide

/-- C3 amended: for every `CreateInviteByAdminClient` or
`ListInvitesByAdminClient` request that passes the field-presence, key
well-formedness and admin-membership checks and whose `issuedAt` parses
as RFC3339 more than 2 minutes before or after server time, the request
is rejected with the stale-request error and the state is unchanged, for
every (non-empty) signature value — in particular the rejection never
depends on whether the signature would verify against the admin key. -/
theorem admin_stale_rejected_for_every_signature
    (cr : Crypto) (st : ServerState) (now : Int) :
    (∀ (inviteID : String) (req : CreateInviteByAdminClientRequest) (issuedAt : Int)
        (k1 k2 : Bytes),
      goTrimSpace req.adminPublicKey ≠ "" → goTrimSpace req.clientPublicKey ≠ "" →
      goTrimSpace req.issuedAt ≠ "" → goTrimSpace req.signature ≠ "" →
      cr.decodePublicKey (goTrimSpace req.adminPublicKey) = some k1 →
      cr.decodePublicKey (goTrimSpace req.clientPublicKey) = some k2 →
      isAdminPublicKeyLocked st (goTrimSpace req.adminPublicKey) = true →
      cr.parseRFC3339 (goTrimSpace req.issuedAt) = some issuedAt →
      (now - issuedAt > adminRequestMaxSkew ∨ issuedAt - now > adminRequestMaxSkew) →
      CreateInviteByAdminClient cr st now inviteID req =
        (.error (newAPIError 401 "stale_request" "issuedAt is outside allowed skew"), st)) ∧
    (∀ (req : ListInvitesByAdminClientRequest) (issuedAt : Int) (k : Bytes),
      goTrimSpace req.adminPublicKey ≠ "" → goTrimSpace req.issuedAt ≠ "" →
      goTrimSpace req.signature ≠ "" →
      cr.decodePublicKey (goTrimSpace req.adminPublicKey) = some k →
      isAdminPublicKeyLocked st (goTrimSpace req.adminPublicKey) = true →
      cr.parseRFC3339 (goTrimSpace req.issuedAt) = some issuedAt →
      (now - issuedAt > adminRequestMaxSkew ∨ issuedAt - now > adminRequestMaxSkew) →
      ListInvitesByAdminClient cr st now req =
        (.error (newAPIError 401 "stale_request" "issuedAt is outside allowed skew"), st)) := by
  constructor
  · intro inviteID req issuedAt k1 k2 h1 h2 h3 h4 hk1 hk2 hadmin hparse hskew
    unfold CreateInviteByAdminClient
    dsimp only
    rw [if_neg (by simp [h1, h2, h3, h4]), hk1]
    dsimp only
    rw [hk2]
    dsimp only
    rw [if_neg (by simp [hadmin]), hparse]
    dsimp only
    rw [if_pos hskew]
  · intro req issuedAt k h1 h3 h4 hk hadmin hparse hskew
    unfold ListInvitesByAdminClient
    dsimp only
    rw [if_neg (by simp [h1, h3, h4]), hk]
    dsimp only
    rw [if_neg (by simp [hadmin]), hparse]
    dsimp only
    rw [if_pos hskew]

/-- Witness for C3's amended theorem: a stale, otherwise well-formed
request with an arbitrary non-verifying signature is rejected with
`stale_request` by both admin operations. -/
theorem admin_stale_rejected_for_every_signature_witness :
    CreateInviteByAdminClient sampleCrypto sampleState 5000 "newinv"
        ⟨"adminPK", "clientPK", "lbl", "T1000", "garbage"⟩ =
      (.error (newAPIError 401 "stale_request" "issuedAt is outside allowed skew"),
        sampleState) ∧
    ListInvitesByAdminClient sampleCrypto sampleState 5000 ⟨"adminPK", "T1000", "garbage"⟩ =
      (.error (newAPIError 401 "stale_request" "issuedAt is outside allowed skew"),
        sampleState) := by
  have h := admin_stale_rejected_for_every_signature sampleCrypto sampleState 5000
  exact ⟨h.1 "newinv" ⟨"adminPK", "clientPK", "lbl", "T1000", "garbage"⟩ 1000 [1] [1]
      (by decide) (by decide) (by decide) (by decide) (by decide) (by decide) (by decide)
      (by decide) (by decide),
    h.2 ⟨"adminPK", "T1000", "garbage"⟩ 1000 [1]
      (by decide) (by decide) (by decide) (by decide) (by decide) (by decide) (by decide)⟩

end Fosscord
